import Mathlib

/-!
Verification of the Voxel-C engine core against its specification.

This file gives a shallow embedding, in Lean 4, of the voxel data model,
the chunk operations, the terrain generation and the mesher of the
Voxel-C repository, and proves (or refutes) the frozen claims about them.

Conventions of the embedding:
* C++ `int` becomes `Int`; C++ truncating division becomes `Int.tdiv`.
* The dense voxel array becomes a function `Int → VoxelID` indexed by
  `coordsToIndex`; a store becomes a pointwise function update.
* The six neighbour back-pointers are modelled one level deep: for every
  operation of the embedded code a neighbour chunk is only ever read
  through its voxel array or written through its `is_mesh_dirty` flag,
  so a neighbour is a `NeighborChunk` record of exactly those two parts.
* The FastNoise generators are an external library.  The chunk model
  keeps the noise generator abstract, as the integer height field
  `Int → Int → Int` that the seeded noise plus the two splines plus the
  final `(int)` cast induce (this is the only way the generator is
  consumed by the chunk code).  The claim about that pipeline itself is
  settled against the separate real-valued model at the end of the
  definitions, where only the raw noise fields are kept abstract.
* `float` values that the code manipulates exactly (vertex offsets,
  texture ids) become `ℚ`; the one genuinely real-valued computation
  (the terrain-height pipeline with its `sqrtf`) is modelled over `ℝ`.
-/

namespace VoxelC

/-! ## Voxel types and the static properties table (voxel_types.h) -/

abbrev VoxelID := Nat

def CHUNK_SIZE : Nat := 16

def CHUNK_HEIGHT : Nat := 64

def CHUNK_VOLUME : Nat := CHUNK_SIZE * CHUNK_HEIGHT * CHUNK_SIZE

def WATER_LEVEL : Nat := 55

def VOXEL_AIR : VoxelID := 0

def VOXEL_STONE : VoxelID := 1

def VOXEL_DIRT : VoxelID := 2

def VOXEL_GRASS : VoxelID := 3

def VOXEL_COBBLESTONE : VoxelID := 4

def VOXEL_WOOD : VoxelID := 5

def VOXEL_LEAVES : VoxelID := 6

def VOXEL_SAND : VoxelID := 7

def VOXEL_WATER : VoxelID := 8

def VOXEL_GLASS : VoxelID := 9

def VOXEL_IRON : VoxelID := 10

def VOXEL_COUNT : VoxelID := 11

structure VoxelInfo where
  name : String
  is_solid : Bool
  is_transparent : Bool
  texture_top : ℚ
  texture_bottom : ℚ
  texture_sides : ℚ
deriving DecidableEq

/-- The static `VOXEL_INFO[VOXEL_COUNT]` table.  Indexing the C array out
of range is undefined behaviour; the catch-all row below is an arbitrary
value that the guarded helpers `isVoxelSolid` / `isVoxelTransparent`
never read (it is deliberately chosen to differ from what those helpers
return out of range, so that theorems about them depend on the guards). -/
def VOXEL_INFO : VoxelID → VoxelInfo
  | 0 => ⟨"Air", false, true, 0, 0, 0⟩
  | 1 => ⟨"Stone", true, false, 1, 1, 1⟩
  | 2 => ⟨"Dirt", true, false, 2, 2, 2⟩
  | 3 => ⟨"Grass", true, false, 3, 2, 4⟩
  | 4 => ⟨"Cobblestone", true, false, 5, 5, 5⟩
  | 5 => ⟨"Wood", true, false, 6, 6, 7⟩
  | 6 => ⟨"Leaves", true, true, 8, 8, 8⟩
  | 7 => ⟨"Sand", true, false, 9, 9, 9⟩
  | 8 => ⟨"Water", false, true, 10, 10, 10⟩
  | 9 => ⟨"Glass", true, true, 42, 42, 42⟩
  | 10 => ⟨"Iron", true, false, 43, 43, 43⟩
  | _ + 11 => ⟨"OutOfTable", true, false, 0, 0, 0⟩

def isVoxelSolid (voxel : VoxelID) : Bool :=
  decide (voxel < VOXEL_COUNT) && (VOXEL_INFO voxel).is_solid

def isVoxelTransparent (voxel : VoxelID) : Bool :=
  decide (voxel ≥ VOXEL_COUNT) || (VOXEL_INFO voxel).is_transparent

/-! ## Small vector types (glm::ivec3 / glm::vec3 / glm::vec2) -/

structure IVec3 where
  x : Int
  y : Int
  z : Int
deriving DecidableEq

instance instAddIVec3 : Add IVec3 := ⟨fun a b => ⟨a.x + b.x, a.y + b.y, a.z + b.z⟩⟩

theorem IVec3.add_def (a b : IVec3) : a + b = ⟨a.x + b.x, a.y + b.y, a.z + b.z⟩ := rfl

structure Vec3 where
  x : ℚ
  y : ℚ
  z : ℚ
deriving DecidableEq

def vecAdd (a b : Vec3) : Vec3 := ⟨a.x + b.x, a.y + b.y, a.z + b.z⟩

structure Vec2 where
  x : ℚ
  y : ℚ
deriving DecidableEq

/-! ## Mesh data (chunk_mesh.h) -/

structure VoxelVertex where
  position : Vec3
  normal : Vec3
  texCoord : Vec2
  textureId : ℚ
  debugFlag : ℚ
deriving DecidableEq

/-- Provenance record for one emitted face: the cell, the face direction
and the voxel type that `addFaceOptimized` was called for.  The C++ mesh
stores only the resulting vertices; the face list is verification
instrumentation that tracks where each group of four vertices came from. -/
structure Face where
  chunk_x : Int
  chunk_y : Int
  chunk_z : Int
  dir : Nat
  voxel : VoxelID
deriving DecidableEq

structure ChunkMeshState where
  vertices : List VoxelVertex
  indices : List Nat
  faces : List Face
  is_built : Bool
  is_uploaded : Bool
  vertex_count : Nat
  index_count : Nat

/-! ## Chunk state (voxel_chunk.h) -/

/-- A neighbour chunk, one level deep: the embedded operations read a
neighbour only through its voxel array (`getVoxelWithNeighbors`) and
write it only through its `is_mesh_dirty` flag (`setVoxel`). -/
structure NeighborChunk where
  voxels : Int → VoxelID
  is_mesh_dirty : Bool

def NEIGHBOR_FRONT : Fin 6 := 0

def NEIGHBOR_BACK : Fin 6 := 1

def NEIGHBOR_RIGHT : Fin 6 := 2

def NEIGHBOR_LEFT : Fin 6 := 3

def NEIGHBOR_TOP : Fin 6 := 4

def NEIGHBOR_BOTTOM : Fin 6 := 5

def FACE_FRONT : Nat := 0

def FACE_BACK : Nat := 1

def FACE_RIGHT : Nat := 2

def FACE_LEFT : Nat := 3

def FACE_TOP : Nat := 4

def FACE_BOTTOM : Nat := 5

structure VoxelChunk where
  position : IVec3
  version : Nat
  generation_seed : Nat
  is_generated : Bool
  is_dirty : Bool
  is_mesh_dirty : Bool
  is_meshing : Bool
  voxels : Int → VoxelID
  neighbors : Fin 6 → Option NeighborChunk
  mesh : Option ChunkMeshState
  column_heights : Int → Int
  has_column_cache : Bool
  noise_generator : Option (Int → Int → Int)
  extended_terrain_heights : Int → Int
  has_extended_noise_cache : Bool

/-- `VoxelChunk::isInBounds` (coordinate-only, shared with the neighbour
stubs). -/
def isInBounds (x y z : Int) : Bool :=
  decide (0 ≤ x) && decide (x < CHUNK_SIZE) && decide (0 ≤ y) &&
    decide (y < CHUNK_HEIGHT) && decide (0 ≤ z) && decide (z < CHUNK_SIZE)

/-- `VoxelChunk::coordsToIndex`. -/
def coordsToIndex (x y z : Int) : Int :=
  x * CHUNK_HEIGHT * CHUNK_SIZE + y * CHUNK_SIZE + z

/-- `VoxelChunk::columnIndex`. -/
def columnIndex (x z : Int) : Int := x * CHUNK_SIZE + z

/-- The `VoxelChunk(pos)` constructor.  `column_heights{}` is
value-initialised to zeroes in C++; `extended_terrain_heights` is left
indeterminate there and is modelled as zeroes, guarded (as in the code)
by `has_extended_noise_cache = false`. -/
def VoxelChunk.init (pos : IVec3) : VoxelChunk where
  position := pos
  version := 0
  generation_seed := 0
  is_generated := false
  is_dirty := false
  is_mesh_dirty := false
  is_meshing := false
  voxels := fun _ => VOXEL_AIR
  neighbors := fun _ => none
  mesh := some ⟨[], [], [], false, false, 0, 0⟩
  column_heights := fun _ => 0
  has_column_cache := false
  noise_generator := none
  extended_terrain_heights := fun _ => 0
  has_extended_noise_cache := false

/-- `VoxelChunk::getVoxel`: bounds-checked read, Air when out of bounds. -/
def VoxelChunk.getVoxel (c : VoxelChunk) (x y z : Int) : VoxelID :=
  if isInBounds x y z then c.voxels (coordsToIndex x y z) else VOXEL_AIR

/-- `VoxelChunk::getVoxel` on a neighbour back-pointer. -/
def NeighborChunk.getVoxel (nb : NeighborChunk) (x y z : Int) : VoxelID :=
  if isInBounds x y z then nb.voxels (coordsToIndex x y z) else VOXEL_AIR

/-- The statement `neighbors[d]->is_mesh_dirty = true;` guarded by the
null check, as performed inside `VoxelChunk::setVoxel`. -/
def VoxelChunk.markNeighborMeshDirty (c : VoxelChunk) (d : Fin 6) : VoxelChunk :=
  match c.neighbors d with
  | none => c
  | some nb =>
      { c with neighbors := fun e =>
          if e = d then some { nb with is_mesh_dirty := true } else c.neighbors e }

/-- `VoxelChunk::setVoxel`. -/
def VoxelChunk.setVoxel (c : VoxelChunk) (x y z : Int) (voxel : VoxelID) : VoxelChunk :=
  if isInBounds x y z then
    let index := coordsToIndex x y z
    if c.voxels index ≠ voxel then
      let c1 : VoxelChunk :=
        { c with voxels := fun i => if i = index then voxel else c.voxels i,
                 version := c.version + 1, is_dirty := true, is_mesh_dirty := true }
      let c2 := if x = 0 then c1.markNeighborMeshDirty NEIGHBOR_LEFT else c1
      let c3 := if x = (CHUNK_SIZE : Int) - 1 then c2.markNeighborMeshDirty NEIGHBOR_RIGHT else c2
      let c4 := if y = 0 then c3.markNeighborMeshDirty NEIGHBOR_BOTTOM else c3
      let c5 := if y = (CHUNK_HEIGHT : Int) - 1 then c4.markNeighborMeshDirty NEIGHBOR_TOP else c4
      let c6 := if z = 0 then c5.markNeighborMeshDirty NEIGHBOR_BACK else c5
      if z = (CHUNK_SIZE : Int) - 1 then c6.markNeighborMeshDirty NEIGHBOR_FRONT else c6
    else c
  else c

/-- `VoxelChunk::calculateTerrainHeightAt`: 64 when no noise generator is
present, otherwise the height field of the generator at the world
coordinates of the column. -/
def VoxelChunk.calculateTerrainHeightAt (c : VoxelChunk) (x z : Int) : Int :=
  match c.noise_generator with
  | none => 64
  | some f => f (c.position.x * CHUNK_SIZE + x) (c.position.z * CHUNK_SIZE + z)

/-- `VoxelChunk::getTerrainHeightFromCache`. -/
def VoxelChunk.getTerrainHeightFromCache (c : VoxelChunk) (x z : Int) : Int :=
  if c.has_extended_noise_cache then
    let cacheX := x + 1
    let cacheZ := z + 1
    if 0 ≤ cacheX ∧ cacheX < (CHUNK_SIZE : Int) + 2 ∧ 0 ≤ cacheZ ∧ cacheZ < (CHUNK_SIZE : Int) + 2 then
      c.extended_terrain_heights (cacheX * ((CHUNK_SIZE : Int) + 2) + cacheZ)
    else c.calculateTerrainHeightAt x z
  else c.calculateTerrainHeightAt x z

/-- The body of the inner (`z`) loop of
`VoxelChunk::calculateExtendedNoiseCache`: the loop variables run over
`0 .. SIZE+1` and stand for local coordinates `x = xi - 1`,
`z = zi - 1`.  The C++ loop body runs the noise, clamp, spline and
`(int)` pipeline inline; the model reads the resulting integer height
from the abstract field `f` of the generator and stores it at cache
index `cacheX * (SIZE + 2) + cacheZ`. -/
def VoxelChunk.cacheColumnStep (f : Int → Int → Int) (xi : Nat) (cb : VoxelChunk)
    (zi : Nat) : VoxelChunk :=
  let x : Int := (xi : Int) - 1
  let z : Int := (zi : Int) - 1
  let worldX := cb.position.x * CHUNK_SIZE + x
  let worldZ := cb.position.z * CHUNK_SIZE + z
  let terrainHeight := f worldX worldZ
  let cacheX := x + 1
  let cacheZ := z + 1
  { cb with extended_terrain_heights := fun i =>
      if i = cacheX * ((CHUNK_SIZE : Int) + 2) + cacheZ then terrainHeight
      else cb.extended_terrain_heights i }

/-- `VoxelChunk::calculateExtendedNoiseCache`: fills the height cache
for local `x, z ∈ [-1, SIZE]`. -/
def VoxelChunk.calculateExtendedNoiseCache (c : VoxelChunk) : VoxelChunk :=
  match c.noise_generator with
  | none => c
  | some f =>
      let c1 := (List.range (CHUNK_SIZE + 2)).foldl (fun ca xi =>
        (List.range (CHUNK_SIZE + 2)).foldl (VoxelChunk.cacheColumnStep f xi) ca) c
      { c1 with has_extended_noise_cache := true }

/-- `VoxelChunk::generateExpectedVoxelFromCache`: the apron prediction. -/
def VoxelChunk.generateExpectedVoxelFromCache (c : VoxelChunk) (x y z : Int) : VoxelID :=
  if isInBounds x y z then c.voxels (coordsToIndex x y z)
  else
    let terrainHeight := c.getTerrainHeightFromCache x z
    let worldY := c.position.y * CHUNK_HEIGHT + y
    if worldY < terrainHeight - 3 then VOXEL_STONE
    else if worldY < terrainHeight - 1 then VOXEL_DIRT
    else if worldY < terrainHeight then VOXEL_GRASS
    else if worldY ≤ WATER_LEVEL ∧ worldY ≥ terrainHeight then VOXEL_WATER
    else VOXEL_AIR

/-- `VoxelChunk::getVoxelWithNeighbors`: in-bounds read, Stone beyond the
one-cell apron, neighbour read (resolved on the first out-of-range axis,
in the source's order) when the neighbour is loaded and the wrapped
coordinate is in its bounds, otherwise the apron prediction. -/
def VoxelChunk.getVoxelWithNeighbors (c : VoxelChunk) (x y z : Int) : VoxelID :=
  if isInBounds x y z then c.voxels (coordsToIndex x y z)
  else if x < -1 ∨ x > (CHUNK_SIZE : Int) ∨ y < -1 ∨ y > (CHUNK_HEIGHT : Int) ∨
      z < -1 ∨ z > (CHUNK_SIZE : Int) then
    VOXEL_STONE
  else
    let sel : Option (Fin 6) × Int × Int × Int :=
      if x = -1 then (some NEIGHBOR_LEFT, (CHUNK_SIZE : Int) - 1, y, z)
      else if x = (CHUNK_SIZE : Int) then (some NEIGHBOR_RIGHT, 0, y, z)
      else if y = -1 then (some NEIGHBOR_BOTTOM, x, (CHUNK_HEIGHT : Int) - 1, z)
      else if y = (CHUNK_HEIGHT : Int) then (some NEIGHBOR_TOP, x, 0, z)
      else if z = -1 then (some NEIGHBOR_BACK, x, y, (CHUNK_SIZE : Int) - 1)
      else if z = (CHUNK_SIZE : Int) then (some NEIGHBOR_FRONT, x, y, 0)
      else (none, x, y, z)
    match sel with
    | (some d, nx, ny, nz) =>
        match c.neighbors d with
        | some nb =>
            if isInBounds nx ny nz then nb.getVoxel nx ny nz
            else c.generateExpectedVoxelFromCache x y z
        | none => c.generateExpectedVoxelFromCache x y z
    | (none, _, _, _) => c.generateExpectedVoxelFromCache x y z

/-- `VoxelChunk::getVoxelSafe`. -/
def VoxelChunk.getVoxelSafe (c : VoxelChunk) (x y z : Int) : VoxelID :=
  if isInBounds x y z then c.voxels (coordsToIndex x y z)
  else c.getVoxelWithNeighbors x y z

/-- The body of the innermost (`y`) loop of `VoxelChunk::generate`: the
C++ `voxel` variable is initialised to Air and overwritten by the
`if`/`else if` chain, which is the final `else` branch here, then
written through `setVoxel`. -/
def VoxelChunk.generateColumnStep (terrainHeight worldPosY x z : Int) (cc : VoxelChunk)
    (yn : Nat) : VoxelChunk :=
  let y : Int := (yn : Int)
  let worldY := worldPosY + y
  let voxel : VoxelID :=
    if worldY < terrainHeight - 3 then VOXEL_STONE
    else if worldY < terrainHeight - 1 then VOXEL_DIRT
    else if worldY < terrainHeight then VOXEL_GRASS
    else if worldY ≤ WATER_LEVEL ∧ worldY ≥ terrainHeight then VOXEL_WATER
    else VOXEL_AIR
  cc.setVoxel x y z voxel

/-- The per-column part of `VoxelChunk::generate`: reads the cached
terrain height, records it into `column_heights`, then fills the column
bottom-up through `generateColumnStep`. -/
def VoxelChunk.generateColumnFill (c : VoxelChunk) (worldPosY : Int) (x z : Int) : VoxelChunk :=
  let terrainHeight := c.getTerrainHeightFromCache x z
  let c0 : VoxelChunk :=
    { c with column_heights := fun i =>
        if i = columnIndex x z then terrainHeight else c.column_heights i }
  (List.range CHUNK_HEIGHT).foldl
    (VoxelChunk.generateColumnStep terrainHeight worldPosY x z) c0

/-- The inner (`z`) loop of the voxel-fill part of
`VoxelChunk::generate`, for one value of the `x` loop variable. -/
def VoxelChunk.generateZLoop (worldPosY : Int) (xn : Nat) (cx : VoxelChunk) : VoxelChunk :=
  (List.range CHUNK_SIZE).foldl
    (fun cz zn => cz.generateColumnFill worldPosY (xn : Int) (zn : Int)) cx

/-- The outer (`x`) loop of the voxel-fill part of `VoxelChunk::generate`. -/
def VoxelChunk.generateFill (worldPosY : Int) (c : VoxelChunk) : VoxelChunk :=
  (List.range CHUNK_SIZE).foldl
    (fun cx xn => VoxelChunk.generateZLoop worldPosY xn cx) c

/-- The final flag updates of `VoxelChunk::generate` (everything after
the fill loops). -/
def VoxelChunk.finalizeGenerate (cf : VoxelChunk) : VoxelChunk :=
  { cf with has_column_cache := true, is_generated := true, is_dirty := false,
            is_mesh_dirty := true, is_meshing := false, version := cf.version + 1 }

/-- The body of `VoxelChunk::generate` past the idempotence guard.
`noiseOf seed` is the integer height field produced by
`VoxelNoise(seed)` followed by the spline pipeline (kept abstract here,
see the module comment); the C++ member
`noise_generator = make_unique<VoxelNoise>(seed)` becomes storing that
field. -/
def VoxelChunk.generateBody (noiseOf : Nat → Int → Int → Int) (c : VoxelChunk) (seed : Nat) :
    VoxelChunk :=
  let ca : VoxelChunk := { c with generation_seed := seed, noise_generator := some (noiseOf seed) }
  let cb := ca.calculateExtendedNoiseCache
  let worldPosY : Int := cb.position.y * CHUNK_HEIGHT
  VoxelChunk.finalizeGenerate (VoxelChunk.generateFill worldPosY cb)

/-- `VoxelChunk::generate`. -/
def VoxelChunk.generate (noiseOf : Nat → Int → Int → Int) (c : VoxelChunk) (seed : Nat) :
    VoxelChunk :=
  if c.is_generated then c else VoxelChunk.generateBody noiseOf c seed

/-! ## Mesher (chunk_mesh.cpp) -/

/-- The static `FACE_VERTICES[6][4]` table of half-unit corner offsets.
Indexing past the six rows is undefined behaviour in C++ and unreachable
through `buildMesh`; the catch-all row is zero. -/
def FACE_VERTICES (dir : Nat) : Fin 4 → Vec3 :=
  match dir with
  | 0 => fun i => match i with
      | 0 => ⟨-(1/2), -(1/2), 1/2⟩
      | 1 => ⟨1/2, -(1/2), 1/2⟩
      | 2 => ⟨1/2, 1/2, 1/2⟩
      | 3 => ⟨-(1/2), 1/2, 1/2⟩
  | 1 => fun i => match i with
      | 0 => ⟨1/2, -(1/2), -(1/2)⟩
      | 1 => ⟨-(1/2), -(1/2), -(1/2)⟩
      | 2 => ⟨-(1/2), 1/2, -(1/2)⟩
      | 3 => ⟨1/2, 1/2, -(1/2)⟩
  | 2 => fun i => match i with
      | 0 => ⟨1/2, -(1/2), 1/2⟩
      | 1 => ⟨1/2, -(1/2), -(1/2)⟩
      | 2 => ⟨1/2, 1/2, -(1/2)⟩
      | 3 => ⟨1/2, 1/2, 1/2⟩
  | 3 => fun i => match i with
      | 0 => ⟨-(1/2), -(1/2), -(1/2)⟩
      | 1 => ⟨-(1/2), -(1/2), 1/2⟩
      | 2 => ⟨-(1/2), 1/2, 1/2⟩
      | 3 => ⟨-(1/2), 1/2, -(1/2)⟩
  | 4 => fun i => match i with
      | 0 => ⟨-(1/2), 1/2, 1/2⟩
      | 1 => ⟨1/2, 1/2, 1/2⟩
      | 2 => ⟨1/2, 1/2, -(1/2)⟩
      | 3 => ⟨-(1/2), 1/2, -(1/2)⟩
  | 5 => fun i => match i with
      | 0 => ⟨-(1/2), -(1/2), -(1/2)⟩
      | 1 => ⟨1/2, -(1/2), -(1/2)⟩
      | 2 => ⟨1/2, -(1/2), 1/2⟩
      | 3 => ⟨-(1/2), -(1/2), 1/2⟩
  | _ => fun _ => ⟨0, 0, 0⟩

/-- The static `FACE_NORMALS[6]` table (catch-all row unreachable). -/
def FACE_NORMALS (dir : Nat) : Vec3 :=
  match dir with
  | 0 => ⟨0, 0, 1⟩
  | 1 => ⟨0, 0, -1⟩
  | 2 => ⟨1, 0, 0⟩
  | 3 => ⟨-1, 0, 0⟩
  | 4 => ⟨0, 1, 0⟩
  | 5 => ⟨0, -1, 0⟩
  | _ => ⟨0, 0, 0⟩

/-- The static `FACE_TEX_COORDS[4]` table. -/
def FACE_TEX_COORDS (i : Fin 4) : Vec2 :=
  match i with
  | 0 => ⟨0, 0⟩
  | 1 => ⟨1, 0⟩
  | 2 => ⟨1, 1⟩
  | 3 => ⟨0, 1⟩

/-- The `switch (face_direction)` of `shouldRenderFaceOptimized` that
steps one cell in the face direction (no `default` case: an unknown
direction leaves the coordinates unchanged). -/
def neighborCoordsForFace (x y z : Int) (face_direction : Nat) : Int × Int × Int :=
  match face_direction with
  | 0 => (x, y, z + 1)
  | 1 => (x, y, z - 1)
  | 2 => (x + 1, y, z)
  | 3 => (x - 1, y, z)
  | 4 => (x, y + 1, z)
  | 5 => (x, y - 1, z)
  | _ => (x, y, z)

/-- `ChunkMesh::shouldRenderFaceOptimized`. -/
def ChunkMesh.shouldRenderFaceOptimized (chunk : VoxelChunk) (x y z : Int)
    (face_direction : Nat) (current_voxel : VoxelID) : Bool :=
  let n := neighborCoordsForFace x y z face_direction
  let neighbor_voxel := chunk.getVoxelSafe n.1 n.2.1 n.2.2
  let current_transparent := (VOXEL_INFO current_voxel).is_transparent
  let neighbor_transparent := (VOXEL_INFO neighbor_voxel).is_transparent
  if current_voxel = VOXEL_WATER then
    if neighbor_voxel = VOXEL_AIR then true else false
  else if current_transparent = false then neighbor_transparent
  else decide (current_voxel ≠ neighbor_voxel)

/-- `ChunkMesh::addFaceOptimized`: appends four vertices and six indices;
additionally records the provenance `Face` (see `Face`). -/
def ChunkMesh.addFaceOptimized (m : ChunkMeshState) (position : Vec3) (face_direction : Nat)
    (voxel_type : VoxelID) (chunk_x chunk_y chunk_z : Int) : ChunkMeshState :=
  let base_index := m.vertices.length
  let texture_id : ℚ :=
    if voxel_type < VOXEL_COUNT then
      let info := VOXEL_INFO voxel_type
      if face_direction = 4 then info.texture_top
      else if face_direction = 5 then info.texture_bottom
      else info.texture_sides
    else 0
  let debug_flag : ℚ := 0
  let fv := FACE_VERTICES face_direction
  let normal := FACE_NORMALS face_direction
  { m with
    vertices := m.vertices ++
      [⟨vecAdd position (fv 0), normal, FACE_TEX_COORDS 0, texture_id, debug_flag⟩,
       ⟨vecAdd position (fv 1), normal, FACE_TEX_COORDS 1, texture_id, debug_flag⟩,
       ⟨vecAdd position (fv 2), normal, FACE_TEX_COORDS 2, texture_id, debug_flag⟩,
       ⟨vecAdd position (fv 3), normal, FACE_TEX_COORDS 3, texture_id, debug_flag⟩],
    indices := m.indices ++
      [base_index, base_index + 1, base_index + 2,
       base_index + 2, base_index + 3, base_index],
    faces := m.faces ++ [⟨chunk_x, chunk_y, chunk_z, face_direction, voxel_type⟩] }

/-- The body of the main loop of `ChunkMesh::buildMesh` for one cell:
skip Air, otherwise run `emitFaceIfVisible` for the six directions in
the source's order (front, back, right, left, top, bottom).  The
`neighborVoxel` that `emitFaceIfVisible` pre-computes only feeds a
statistics counter — the emission decision re-reads the neighbour
through `shouldRenderFaceOptimized` — so it is dropped here. -/
def ChunkMesh.emitFace (chunk : VoxelChunk) (x y z : Int) (voxel : VoxelID)
    (basePos : Vec3) (mm : ChunkMeshState) (faceDir : Nat) : ChunkMeshState :=
  if ChunkMesh.shouldRenderFaceOptimized chunk x y z faceDir voxel then
    ChunkMesh.addFaceOptimized mm basePos faceDir voxel x y z
  else mm

def ChunkMesh.processCell (chunk : VoxelChunk) (m : ChunkMeshState) (x y z : Int) :
    ChunkMeshState :=
  let voxel := chunk.voxels (coordsToIndex x y z)
  if voxel = VOXEL_AIR then m
  else
    [FACE_FRONT, FACE_BACK, FACE_RIGHT, FACE_LEFT, FACE_TOP, FACE_BOTTOM].foldl
      (ChunkMesh.emitFace chunk x y z voxel ⟨(x : ℚ), (y : ℚ), (z : ℚ)⟩) m

/-- The `solid_voxel_count` loop of `ChunkMesh::buildMesh` (lines 97-103). -/
def ChunkMesh.solidVoxelCount (chunk : VoxelChunk) : Nat :=
  (List.range CHUNK_VOLUME).foldl
    (fun n (i : Nat) => if chunk.voxels (i : Int) ≠ VOXEL_AIR then n + 1 else n) 0

/-- The `estimated_vertices` capacity hint of `ChunkMesh::buildMesh`
(line 106): `std::min(solid_voxel_count * 24, CHUNK_VOLUME / 4)`.
Reserving capacity has no observable effect on the vector contents, so
the quantity is modelled as a standalone value. -/
def ChunkMesh.estimatedVertices (chunk : VoxelChunk) : Nat :=
  min (ChunkMesh.solidVoxelCount chunk * 24) (CHUNK_VOLUME / 4)

/-- The triple x/y/z cell loop of `ChunkMesh::buildMesh`. -/
def ChunkMesh.meshLoop (chunk : VoxelChunk) (m0 : ChunkMeshState) : ChunkMeshState :=
  (List.range CHUNK_SIZE).foldl (fun mx (xn : Nat) =>
      (List.range CHUNK_HEIGHT).foldl (fun my (yn : Nat) =>
        (List.range CHUNK_SIZE).foldl (fun mz (zn : Nat) =>
          ChunkMesh.processCell chunk mz (xn : Int) (yn : Int) (zn : Int)) my) mx) m0

/-- `ChunkMesh::buildMesh`: clears, then scans all cells in x/y/z order
emitting faces, then records the counts and marks the mesh built and
not uploaded. -/
def ChunkMesh.buildMesh (chunk : VoxelChunk) : ChunkMeshState :=
  let m := ChunkMesh.meshLoop chunk ⟨[], [], [], false, false, 0, 0⟩
  { m with vertex_count := m.vertices.length, index_count := m.indices.length,
           is_built := true, is_uploaded := false }

/-- `VoxelChunk::buildMesh` (voxel_chunk.cpp): no-op when the mesh
pointer is null, otherwise rebuild the mesh and clear `is_mesh_dirty`. -/
def VoxelChunk.buildMesh (c : VoxelChunk) : VoxelChunk :=
  match c.mesh with
  | none => c
  | some _ => { c with mesh := some (ChunkMesh.buildMesh c), is_mesh_dirty := false }

/-- `VoxelChunk::needsMeshRebuild`. -/
def VoxelChunk.needsMeshRebuild (c : VoxelChunk) : Bool :=
  c.is_mesh_dirty ||
    match c.mesh with
    | none => true
    | some m => !m.is_built

/-! ## Worker loop (voxel_renderer.cpp) -/

/-- One iteration of `VoxelRenderer::workerLoop` after a chunk has been
popped from the mesh queue.  The returned Bool is whether the chunk was
pushed onto the upload queue.  The wall-clock measurement
`mesh_time > 500.0f` is an environmental condition and enters as the
parameter `timed_out`; `mesh_success` is true because the embedded
`buildMesh` is total. -/
def VoxelRenderer.workerProcessPopped (c : VoxelChunk) (timed_out : Bool) :
    VoxelChunk × Bool :=
  if !c.needsMeshRebuild then ({ c with is_meshing := false }, false)
  else
    let c1 := c.buildMesh
    let mesh_success := true
    if mesh_success && !timed_out then (c1, true)
    else ({ c1 with is_meshing := false }, false)

/-! ## World coordinate conversion (voxel_world.cpp) -/

/-- `VoxelWorld::worldToChunk` on integer world coordinates.  C++
integer division truncates toward zero, hence `Int.tdiv`. -/
def VoxelWorld.worldToChunk (world_pos : IVec3) : IVec3 :=
  ⟨if 0 ≤ world_pos.x then Int.tdiv world_pos.x CHUNK_SIZE
    else Int.tdiv (world_pos.x + 1) CHUNK_SIZE - 1,
   if 0 ≤ world_pos.y then Int.tdiv world_pos.y CHUNK_HEIGHT
    else Int.tdiv (world_pos.y + 1) CHUNK_HEIGHT - 1,
   if 0 ≤ world_pos.z then Int.tdiv world_pos.z CHUNK_SIZE
    else Int.tdiv (world_pos.z + 1) CHUNK_SIZE - 1⟩

/-- `VoxelWorld::chunkToWorld`. -/
def VoxelWorld.chunkToWorld (chunk_pos : IVec3) : IVec3 :=
  ⟨chunk_pos.x * CHUNK_SIZE, chunk_pos.y * CHUNK_HEIGHT, chunk_pos.z * CHUNK_SIZE⟩

/-- `VoxelWorld::worldToLocal`: the world position minus the world
position of its chunk's origin. -/
def VoxelWorld.worldToLocal (world_pos : IVec3) : IVec3 :=
  let chunk_pos := VoxelWorld.worldToChunk world_pos
  let chunk_world_pos := VoxelWorld.chunkToWorld chunk_pos
  ⟨world_pos.x - chunk_world_pos.x, world_pos.y - chunk_world_pos.y,
   world_pos.z - chunk_world_pos.z⟩

/-! ## The terrain-height pipeline over the reals (voxel_noise.h /
voxel_chunk.cpp `calculateTerrainHeightAt`)

Here the noise fields themselves stay abstract (they are the external
FastNoise library), but the clamp, the splines, the conditional mountain
term with its `sqrtf`, and the final `(int)` cast are spelled out.  The
`* 0.005f` coordinate scaling is a fixed injective re-parametrisation
and is composed into the abstract fields. -/

structure SplinePoint where
  input : ℚ
  output : ℚ

def continentalSpline : List SplinePoint :=
  [⟨-1, 30⟩, ⟨-1/2, 50⟩, ⟨0, 80⟩, ⟨3/10, 100⟩, ⟨3/5, 130⟩, ⟨1, 160⟩]

def erosionSpline : List SplinePoint := [⟨-1, 0⟩, ⟨0, 10⟩, ⟨1/2, 25⟩, ⟨1, 40⟩]

/-- `VoxelNoise::lerp`. -/
def lerp (a b t : ℚ) : ℚ := a + t * (b - a)

/-- The bracketing-pair search loop of `VoxelNoise::evalSpline` (returns
0 past the end, the source's "should never happen" fallback). -/
def evalSplineSearch : List SplinePoint → ℚ → ℚ
  | p :: q :: rest, t =>
      if p.input ≤ t ∧ t ≤ q.input then
        lerp p.output q.output ((t - p.input) / (q.input - p.input))
      else evalSplineSearch (q :: rest) t
  | _, _ => 0

/-- `VoxelNoise::evalSpline`: clamp to the end knots, else interpolate
between the bracketing knots. -/
def evalSpline (spline : List SplinePoint) (t : ℚ) : ℚ :=
  match spline.head?, spline.getLast? with
  | some first, some last =>
      if t ≤ first.input then first.output
      else if t ≥ last.input then last.output
      else evalSplineSearch spline t
  | _, _ => 0

/-- The three seeded FastNoise FBm fields, abstract, already composed
with the `* 0.005f` coordinate scaling; values are the exact reals the
float fields would produce. -/
structure VoxelNoiseFields where
  getContinentalness : Int → Int → ℚ
  getErosion : Int → Int → ℚ
  getPeaksandValleys : Int → Int → ℚ

/-- The clamp lambda `std::max(-1.0f, std::min(1.0f, v))`. -/
def clampNoise (v : ℚ) : ℚ := max (-1) (min 1 v)

/-- The real-valued terrain height of
`VoxelChunk::calculateTerrainHeightAt` (the value of `terrainHeightF`
just before the `(int)` cast): continental spline minus erosion spline,
plus `m·m·sqrt(m)·50` with `m = max(0, p − e)` when `e < 0.3`. -/
noncomputable def terrainHeightF (noise : VoxelNoiseFields) (worldX worldZ : Int) : ℝ :=
  let continentalness := clampNoise (noise.getContinentalness worldX worldZ)
  let erosion := clampNoise (noise.getErosion worldX worldZ)
  let baseHeight := evalSpline continentalSpline continentalness
  let erosionEffect := evalSpline erosionSpline erosion
  let h : ℝ := ((baseHeight - erosionEffect : ℚ) : ℝ)
  if erosion < 3/10 then
    let peaksAndValleys := clampNoise (noise.getPeaksandValleys worldX worldZ)
    let mountainFactor : ℝ := max 0 ((peaksAndValleys - erosion : ℚ) : ℝ)
    h + mountainFactor * mountainFactor * Real.sqrt mountainFactor * 50
  else h

/-- The C++ `(int)` cast from a floating value: truncation toward zero. -/
noncomputable def floatToIntCast (x : ℝ) : Int := if 0 ≤ x then ⌊x⌋ else -⌊-x⌋

/-- `VoxelChunk::calculateTerrainHeightAt` with the noise pipeline
spelled out: the `(int)` cast of `terrainHeightF`.  (The chunk model
above consumes this pipeline only through the abstract integer field
`noise_generator`.) -/
noncomputable def calculateTerrainHeightAtNoise (noise : VoxelNoiseFields)
    (worldX worldZ : Int) : Int :=
  floatToIntCast (terrainHeightF noise worldX worldZ)

/-! ## Spec-side definitions (from the specification's words, for
refinement comparisons) -/

/-- The block rule exactly as the specification states it: Stone below
`h − 3`, Dirt on `[h − 3, h − 1)`, Grass on `[h − 1, h)`, Water on
`wy ≥ h ∧ wy ≤ WATER_LEVEL`, otherwise Air. -/
def specBlockRule (wy h : Int) : VoxelID :=
  if wy < h - 3 then VOXEL_STONE
  else if h - 3 ≤ wy ∧ wy < h - 1 then VOXEL_DIRT
  else if h - 1 ≤ wy ∧ wy < h then VOXEL_GRASS
  else if wy ≥ h ∧ wy ≤ WATER_LEVEL then VOXEL_WATER
  else VOXEL_AIR

/-! ## Concrete states used by witnesses and counterexamples -/

/-- A fresh chunk at the origin. -/
def exFresh : VoxelChunk := VoxelChunk.init ⟨0, 0, 0⟩

/-- A fresh chunk whose `is_generated` flag is already set. -/
def exGenerated : VoxelChunk := { VoxelChunk.init ⟨0, 0, 0⟩ with is_generated := true }

/-- A chunk with a single Water cell at local (5, 10, 5), Air elsewhere. -/
def exChunkWater : VoxelChunk :=
  { VoxelChunk.init ⟨0, 0, 0⟩ with
    voxels := fun i => if i = coordsToIndex 5 10 5 then VOXEL_WATER else VOXEL_AIR }

/-- A chunk every cell of which is Leaves. -/
def exChunkLeaves : VoxelChunk :=
  { VoxelChunk.init ⟨0, 0, 0⟩ with voxels := fun _ => VOXEL_LEAVES }

/-- A chunk with a Stone cell at local (15, 10, 5) and a loaded right
neighbour whose mesh is clean. -/
def exChunkEdge : VoxelChunk :=
  { VoxelChunk.init ⟨0, 0, 0⟩ with
    voxels := fun i => if i = coordsToIndex 15 10 5 then VOXEL_STONE else VOXEL_AIR,
    neighbors := fun d =>
      if d = NEIGHBOR_RIGHT then some ⟨fun _ => VOXEL_AIR, false⟩ else none }

/-- A constant height field standing for a noise generator: height 20
everywhere, for every seed. -/
def noiseConst20 : Nat → Int → Int → Int := fun _ _ _ => 20

/-- Noise fields that make the (clamped) continentalness −1 and the
erosion 3/4 everywhere: then the height is 30 − 32.5 = −2.5, a negative
non-integral value, and no mountain term applies (3/4 ≥ 0.3). -/
def nfNegative : VoxelNoiseFields := ⟨fun _ _ => -1, fun _ _ => 3/4, fun _ _ => 0⟩

/-- Noise fields that are zero everywhere: the height is 80 − 10 = 70
(the mountain term applies with `m = 0` and contributes nothing). -/
def nfZero : VoxelNoiseFields := ⟨fun _ _ => 0, fun _ _ => 0, fun _ _ => 0⟩



/-! ## Helper lemmas -/

theorem markNeighborMeshDirty_voxels (c : VoxelChunk) (d : Fin 6) :
    (c.markNeighborMeshDirty d).voxels = c.voxels := by
  unfold VoxelChunk.markNeighborMeshDirty
  cases h : c.neighbors d <;> simp

theorem markNeighborMeshDirty_neighbors (c : VoxelChunk) (d e : Fin 6) :
    (c.markNeighborMeshDirty d).neighbors e =
      if e = d then (c.neighbors d).map (fun nb => { nb with is_mesh_dirty := true })
      else c.neighbors e := by
  unfold VoxelChunk.markNeighborMeshDirty
  cases h : c.neighbors d
  · simp only [h, Option.map_none']
    split
    · next he => rw [he, h]
    · rfl
  · simp [h]

/-- Claim C9: for every out-of-bounds coordinate and every block value,
`setVoxel` is a silent no-op leaving the chunk completely unchanged
(voxels, version, flags and neighbours included). -/
theorem claim_C9 (c : VoxelChunk) (x y z : Int) (voxel : VoxelID)
    (h : isInBounds x y z = false) : c.setVoxel x y z voxel = c := by
  unfold VoxelChunk.setVoxel
  simp [h]

theorem claim_C9_witness :
    isInBounds 16 0 0 = false ∧ exFresh.setVoxel 16 0 0 VOXEL_STONE = exFresh :=
  ⟨by decide, claim_C9 exFresh 16 0 0 VOXEL_STONE (by decide)⟩

/-- Claim C10: every voxel identifier `≥ VOXEL_COUNT` is classified
non-solid by `isVoxelSolid` and transparent by `isVoxelTransparent`. -/
theorem claim_C10 (v : VoxelID) (h : VOXEL_COUNT ≤ v) :
    isVoxelSolid v = false ∧ isVoxelTransparent v = true := by
  have h1 : decide (v < VOXEL_COUNT) = false := by
    simp only [decide_eq_false_iff_not, not_lt]; exact h
  have h2 : decide (v ≥ VOXEL_COUNT) = true := by
    simp only [ge_iff_le, decide_eq_true_eq]; exact h
  exact ⟨by simp [isVoxelSolid, h1], by simp [isVoxelTransparent, h2]⟩

theorem claim_C10_witness :
    VOXEL_COUNT ≤ 11 ∧ isVoxelSolid 11 = false ∧ isVoxelTransparent 11 = true :=
  ⟨by decide, claim_C10 11 (by decide)⟩

theorem floorDiv16 (w : Int) :
    (if 0 ≤ w then Int.tdiv w 16 else Int.tdiv (w + 1) 16 - 1) * 16 ≤ w ∧
    w < ((if 0 ≤ w then Int.tdiv w 16 else Int.tdiv (w + 1) 16 - 1) + 1) * 16 := by
  rcases le_or_lt 0 w with hw | hw
  · rw [if_pos hw]
    have h3 : Int.tdiv w 16 = w / 16 := Int.tdiv_eq_ediv hw (by omega)
    omega
  · rw [if_neg (by omega)]
    have h2 := Int.neg_tdiv (w + 1) 16
    have h3 : Int.tdiv (-(w + 1)) 16 = (-(w + 1)) / 16 :=
      Int.tdiv_eq_ediv (by omega) (by omega)
    omega

theorem floorDiv64 (w : Int) :
    (if 0 ≤ w then Int.tdiv w 64 else Int.tdiv (w + 1) 64 - 1) * 64 ≤ w ∧
    w < ((if 0 ≤ w then Int.tdiv w 64 else Int.tdiv (w + 1) 64 - 1) + 1) * 64 := by
  rcases le_or_lt 0 w with hw | hw
  · rw [if_pos hw]
    have h3 : Int.tdiv w 64 = w / 64 := Int.tdiv_eq_ediv hw (by omega)
    omega
  · rw [if_neg (by omega)]
    have h2 := Int.neg_tdiv (w + 1) 64
    have h3 : Int.tdiv (-(w + 1)) 64 = (-(w + 1)) / 64 :=
      Int.tdiv_eq_ediv (by omega) (by omega)
    omega

/-- Claim C7: `worldToChunk` floors by the per-axis size (16/64/16):
`chunk·size ≤ world < (chunk+1)·size` on each axis, and
`chunkToWorld (worldToChunk p) + worldToLocal p = p` with every
component of `worldToLocal p` inside the chunk bounds. -/
theorem claim_C7 (p : IVec3) :
    (let c := VoxelWorld.worldToChunk p
     let l := VoxelWorld.worldToLocal p
     (c.x * CHUNK_SIZE ≤ p.x ∧ p.x < (c.x + 1) * CHUNK_SIZE) ∧
     (c.y * CHUNK_HEIGHT ≤ p.y ∧ p.y < (c.y + 1) * CHUNK_HEIGHT) ∧
     (c.z * CHUNK_SIZE ≤ p.z ∧ p.z < (c.z + 1) * CHUNK_SIZE) ∧
     VoxelWorld.chunkToWorld c + l = p ∧
     (0 ≤ l.x ∧ l.x < CHUNK_SIZE) ∧ (0 ≤ l.y ∧ l.y < CHUNK_HEIGHT) ∧
     (0 ≤ l.z ∧ l.z < CHUNK_SIZE)) := by
  obtain ⟨px, py, pz⟩ := p
  have hx := floorDiv16 px
  have hy := floorDiv64 py
  have hz := floorDiv16 pz
  simp only [VoxelWorld.worldToChunk, VoxelWorld.worldToLocal, VoxelWorld.chunkToWorld,
    CHUNK_SIZE, CHUNK_HEIGHT, Nat.cast_ofNat, IVec3.add_def, IVec3.mk.injEq]
  refine ⟨⟨?_, ?_⟩, ⟨?_, ?_⟩, ⟨?_, ?_⟩, ⟨?_, ?_, ?_⟩, ⟨?_, ?_⟩, ⟨?_, ?_⟩, ⟨?_, ?_⟩⟩ <;> omega

/-! ## Batch 2: marks/setVoxel field lemmas, C3, C6, C4, C5 -/

theorem markNeighborMeshDirty_eq (c : VoxelChunk) (d : Fin 6) :
    c.markNeighborMeshDirty d =
      { c with neighbors := fun e =>
          if e = d then (c.neighbors d).map (fun nb => { nb with is_mesh_dirty := true })
          else c.neighbors e } := by
  unfold VoxelChunk.markNeighborMeshDirty
  cases h : c.neighbors d
  · have hfun : (fun e => if e = d then
        (Option.map (fun nb : NeighborChunk => { nb with is_mesh_dirty := true }) none)
        else c.neighbors e) = c.neighbors := by
      funext e
      split
      · next he => rw [Option.map_none', he, h]
      · rfl
    rw [hfun]
  · simp [h]

theorem condMark_position (c : VoxelChunk) (P : Prop) [Decidable P] (d : Fin 6) :
    (if P then c.markNeighborMeshDirty d else c).position = c.position := by
  split <;> simp [markNeighborMeshDirty_eq]

/-- Claim C3 (documenting the code bug): when the worker pops a chunk
that needs a rebuild and the build times out (> 500 ms), the chunk is
indeed not pushed to the upload queue — but contrary to the claim,
`VoxelChunk::buildMesh` has already cleared `is_mesh_dirty` before the
timeout check, so the chunk no longer reports `needsMeshRebuild` and is
never re-queued. -/
theorem claim_C3 (c : VoxelChunk) (hneed : c.needsMeshRebuild = true)
    (hm : c.mesh.isSome = true) :
    (VoxelRenderer.workerProcessPopped c true).2 = false ∧
    (VoxelRenderer.workerProcessPopped c true).1.is_mesh_dirty = false ∧
    (VoxelRenderer.workerProcessPopped c true).1.needsMeshRebuild = false := by
  obtain ⟨m, hm'⟩ := Option.isSome_iff_exists.mp hm
  unfold VoxelRenderer.workerProcessPopped VoxelChunk.buildMesh
  rw [hneed, hm']
  simp [VoxelChunk.needsMeshRebuild, ChunkMesh.buildMesh]

theorem claim_C3_witness :
    exFresh.needsMeshRebuild = true ∧ exFresh.mesh.isSome = true ∧
    ((VoxelRenderer.workerProcessPopped exFresh true).2 = false ∧
     (VoxelRenderer.workerProcessPopped exFresh true).1.is_mesh_dirty = false ∧
     (VoxelRenderer.workerProcessPopped exFresh true).1.needsMeshRebuild = false) :=
  ⟨rfl, rfl, claim_C3 exFresh rfl rfl⟩

theorem condMark_voxels (c : VoxelChunk) (P : Prop) [Decidable P] (d : Fin 6) :
    (if P then c.markNeighborMeshDirty d else c).voxels = c.voxels := by
  split <;> simp [markNeighborMeshDirty_eq]

theorem condMark_version (c : VoxelChunk) (P : Prop) [Decidable P] (d : Fin 6) :
    (if P then c.markNeighborMeshDirty d else c).version = c.version := by
  split <;> simp [markNeighborMeshDirty_eq]

theorem condMark_is_dirty (c : VoxelChunk) (P : Prop) [Decidable P] (d : Fin 6) :
    (if P then c.markNeighborMeshDirty d else c).is_dirty = c.is_dirty := by
  split <;> simp [markNeighborMeshDirty_eq]

theorem condMark_is_mesh_dirty (c : VoxelChunk) (P : Prop) [Decidable P] (d : Fin 6) :
    (if P then c.markNeighborMeshDirty d else c).is_mesh_dirty = c.is_mesh_dirty := by
  split <;> simp [markNeighborMeshDirty_eq]

theorem condMark_is_generated (c : VoxelChunk) (P : Prop) [Decidable P] (d : Fin 6) :
    (if P then c.markNeighborMeshDirty d else c).is_generated = c.is_generated := by
  split <;> simp [markNeighborMeshDirty_eq]

theorem condMark_noise_generator (c : VoxelChunk) (P : Prop) [Decidable P] (d : Fin 6) :
    (if P then c.markNeighborMeshDirty d else c).noise_generator = c.noise_generator := by
  split <;> simp [markNeighborMeshDirty_eq]

theorem condMark_extended (c : VoxelChunk) (P : Prop) [Decidable P] (d : Fin 6) :
    (if P then c.markNeighborMeshDirty d else c).extended_terrain_heights =
      c.extended_terrain_heights := by
  split <;> simp [markNeighborMeshDirty_eq]

theorem condMark_has_extended (c : VoxelChunk) (P : Prop) [Decidable P] (d : Fin 6) :
    (if P then c.markNeighborMeshDirty d else c).has_extended_noise_cache =
      c.has_extended_noise_cache := by
  split <;> simp [markNeighborMeshDirty_eq]

theorem condMark_column_heights (c : VoxelChunk) (P : Prop) [Decidable P] (d : Fin 6) :
    (if P then c.markNeighborMeshDirty d else c).column_heights = c.column_heights := by
  split <;> simp [markNeighborMeshDirty_eq]

theorem condMark_neighbors_ne (c : VoxelChunk) (P : Prop) [Decidable P] (d e : Fin 6)
    (hne : e ≠ d) :
    (if P then c.markNeighborMeshDirty d else c).neighbors e = c.neighbors e := by
  split <;> simp [markNeighborMeshDirty_eq, hne]

theorem condMark_neighbors_pos (c : VoxelChunk) (P : Prop) [Decidable P] (hP : P) (d : Fin 6) :
    (if P then c.markNeighborMeshDirty d else c).neighbors d =
      (c.neighbors d).map (fun nb => { nb with is_mesh_dirty := true }) := by
  rw [if_pos hP]; simp [markNeighborMeshDirty_eq]

theorem setVoxel_voxels (c : VoxelChunk) (x y z : Int) (v : VoxelID) (i : Int) :
    (c.setVoxel x y z v).voxels i =
      if isInBounds x y z = true ∧ i = coordsToIndex x y z then v else c.voxels i := by
  unfold VoxelChunk.setVoxel
  by_cases hb : isInBounds x y z = true
  · rw [if_pos hb]
    by_cases hd : c.voxels (coordsToIndex x y z) ≠ v
    · rw [if_pos hd]
      simp only [condMark_voxels]
      by_cases hi : i = coordsToIndex x y z
      · simp [hb, hi]
      · simp [hb, hi]
    · rw [if_neg hd]
      push_neg at hd
      by_cases hi : i = coordsToIndex x y z
      · subst hi
        simp [hb]
        exact hd
      · simp [hb, hi]
  · rw [if_neg hb]
    simp [hb]

theorem setVoxel_position (c : VoxelChunk) (x y z : Int) (v : VoxelID) :
    (c.setVoxel x y z v).position = c.position := by
  unfold VoxelChunk.setVoxel
  by_cases hb : isInBounds x y z = true
  · rw [if_pos hb]
    by_cases hd : c.voxels (coordsToIndex x y z) ≠ v
    · rw [if_pos hd]
      simp only [condMark_position]
    · rw [if_neg hd]
  · rw [if_neg hb]

theorem setVoxel_noise_generator (c : VoxelChunk) (x y z : Int) (v : VoxelID) :
    (c.setVoxel x y z v).noise_generator = c.noise_generator := by
  unfold VoxelChunk.setVoxel
  by_cases hb : isInBounds x y z = true
  · rw [if_pos hb]
    by_cases hd : c.voxels (coordsToIndex x y z) ≠ v
    · rw [if_pos hd]
      simp only [condMark_noise_generator]
    · rw [if_neg hd]
  · rw [if_neg hb]

theorem setVoxel_extended (c : VoxelChunk) (x y z : Int) (v : VoxelID) :
    (c.setVoxel x y z v).extended_terrain_heights = c.extended_terrain_heights := by
  unfold VoxelChunk.setVoxel
  by_cases hb : isInBounds x y z = true
  · rw [if_pos hb]
    by_cases hd : c.voxels (coordsToIndex x y z) ≠ v
    · rw [if_pos hd]
      simp only [condMark_extended]
    · rw [if_neg hd]
  · rw [if_neg hb]

theorem setVoxel_has_extended (c : VoxelChunk) (x y z : Int) (v : VoxelID) :
    (c.setVoxel x y z v).has_extended_noise_cache = c.has_extended_noise_cache := by
  unfold VoxelChunk.setVoxel
  by_cases hb : isInBounds x y z = true
  · rw [if_pos hb]
    by_cases hd : c.voxels (coordsToIndex x y z) ≠ v
    · rw [if_pos hd]
      simp only [condMark_has_extended]
    · rw [if_neg hd]
  · rw [if_neg hb]

theorem setVoxel_column_heights (c : VoxelChunk) (x y z : Int) (v : VoxelID) :
    (c.setVoxel x y z v).column_heights = c.column_heights := by
  unfold VoxelChunk.setVoxel
  by_cases hb : isInBounds x y z = true
  · rw [if_pos hb]
    by_cases hd : c.voxels (coordsToIndex x y z) ≠ v
    · rw [if_pos hd]
      simp only [condMark_column_heights]
    · rw [if_neg hd]
  · rw [if_neg hb]

theorem setVoxel_is_generated (c : VoxelChunk) (x y z : Int) (v : VoxelID) :
    (c.setVoxel x y z v).is_generated = c.is_generated := by
  unfold VoxelChunk.setVoxel
  by_cases hb : isInBounds x y z = true
  · rw [if_pos hb]
    by_cases hd : c.voxels (coordsToIndex x y z) ≠ v
    · rw [if_pos hd]
      simp only [condMark_is_generated]
    · rw [if_neg hd]
  · rw [if_neg hb]

theorem setVoxel_version (c : VoxelChunk) (x y z : Int) (v : VoxelID) :
    (c.setVoxel x y z v).version =
      if isInBounds x y z = true ∧ c.voxels (coordsToIndex x y z) ≠ v then c.version + 1
      else c.version := by
  unfold VoxelChunk.setVoxel
  by_cases hb : isInBounds x y z = true
  · rw [if_pos hb]
    by_cases hd : c.voxels (coordsToIndex x y z) ≠ v
    · rw [if_pos hd]
      simp only [condMark_version]
      simp [hb, hd]
    · rw [if_neg hd]
      simp [hb, hd]
  · rw [if_neg hb]
    simp [hb]

theorem setVoxel_oob (c : VoxelChunk) (x y z : Int) (v : VoxelID)
    (h : isInBounds x y z = false) : c.setVoxel x y z v = c := by
  unfold VoxelChunk.setVoxel
  rw [if_neg (by simp [h])]

theorem setVoxel_noop (c : VoxelChunk) (x y z : Int) (v : VoxelID)
    (h : c.voxels (coordsToIndex x y z) = v) : c.setVoxel x y z v = c := by
  unfold VoxelChunk.setVoxel
  by_cases hb : isInBounds x y z = true
  · rw [if_pos hb, if_neg (by simp [h])]
  · rw [if_neg hb]

theorem generate_is_generated (noiseOf : Nat → Int → Int → Int) (c : VoxelChunk) (seed : Nat) :
    (VoxelChunk.generate noiseOf c seed).is_generated = true := by
  unfold VoxelChunk.generate
  by_cases hg : c.is_generated = true
  · rw [if_pos hg]; exact hg
  · rw [if_neg hg]; rfl

/-- Claim C6: mutating operations are idempotent: `generate` on an
already-generated chunk is a no-op (hence a second `generate` after a
first is a no-op), and `set(p, b); set(p, b)` equals a single set and
increments the version at most once. -/
theorem claim_C6 (noiseOf : Nat → Int → Int → Int) (c : VoxelChunk) (seed : Nat)
    (x y z : Int) (b : VoxelID) :
    (c.is_generated = true → VoxelChunk.generate noiseOf c seed = c) ∧
    VoxelChunk.generate noiseOf (VoxelChunk.generate noiseOf c seed) seed =
      VoxelChunk.generate noiseOf c seed ∧
    (c.setVoxel x y z b).setVoxel x y z b = c.setVoxel x y z b ∧
    ((c.setVoxel x y z b).setVoxel x y z b).version ≤ c.version + 1 := by
  have hgen : ∀ c' : VoxelChunk, c'.is_generated = true →
      VoxelChunk.generate noiseOf c' seed = c' := by
    intro c' h
    unfold VoxelChunk.generate
    rw [if_pos h]
  have hset : (c.setVoxel x y z b).setVoxel x y z b = c.setVoxel x y z b := by
    by_cases hb : isInBounds x y z = true
    · refine setVoxel_noop _ x y z b ?_
      rw [setVoxel_voxels]
      simp [hb]
    · have h0 := setVoxel_oob c x y z b (by simpa using hb)
      rw [h0, h0]
  refine ⟨hgen c, ?_, hset, ?_⟩
  · exact hgen _ (generate_is_generated noiseOf c seed)
  · rw [hset, setVoxel_version]
    split <;> omega

theorem claim_C6_witness :
    exGenerated.is_generated = true ∧
    VoxelChunk.generate noiseConst20 exGenerated 7 = exGenerated :=
  ⟨rfl, (claim_C6 noiseConst20 exGenerated 7 0 0 0 VOXEL_STONE).1 rfl⟩

def boundaryNeighborTouched (x y z : Int) (d : Fin 6) : Bool :=
  if d = NEIGHBOR_LEFT then decide (x = 0)
  else if d = NEIGHBOR_RIGHT then decide (x = (CHUNK_SIZE : Int) - 1)
  else if d = NEIGHBOR_BOTTOM then decide (y = 0)
  else if d = NEIGHBOR_TOP then decide (y = (CHUNK_HEIGHT : Int) - 1)
  else if d = NEIGHBOR_BACK then decide (z = 0)
  else decide (z = (CHUNK_SIZE : Int) - 1)

/-- Claim C5: a successful in-bounds set of a differing value sets
`is_dirty` and `is_mesh_dirty`, increments the version, and marks
`is_mesh_dirty` on the loaded neighbour adjacent to each boundary the
cell touches. -/
theorem claim_C5 (c : VoxelChunk) (x y z : Int) (v : VoxelID)
    (hin : isInBounds x y z = true)
    (hdiff : c.voxels (coordsToIndex x y z) ≠ v) :
    (c.setVoxel x y z v).is_dirty = true ∧
    (c.setVoxel x y z v).is_mesh_dirty = true ∧
    (c.setVoxel x y z v).version = c.version + 1 ∧
    ∀ d : Fin 6, boundaryNeighborTouched x y z d = true →
      (c.setVoxel x y z v).neighbors d =
        (c.neighbors d).map (fun nb => { nb with is_mesh_dirty := true }) := by
  refine ⟨?_, ?_, ?_, ?_⟩
  · unfold VoxelChunk.setVoxel
    rw [if_pos hin, if_pos hdiff]
    simp only [condMark_is_dirty]
  · unfold VoxelChunk.setVoxel
    rw [if_pos hin, if_pos hdiff]
    simp only [condMark_is_mesh_dirty]
  · rw [setVoxel_version, if_pos ⟨hin, hdiff⟩]
  · intro d hd
    unfold VoxelChunk.setVoxel
    rw [if_pos hin, if_pos hdiff]
    fin_cases d
    · have hcnd : z = (CHUNK_SIZE : Int) - 1 := by
        simpa [boundaryNeighborTouched, NEIGHBOR_LEFT, NEIGHBOR_RIGHT, NEIGHBOR_BOTTOM,
          NEIGHBOR_TOP, NEIGHBOR_BACK, NEIGHBOR_FRONT] using hd
      rw [show (⟨0, by omega⟩ : Fin 6) = NEIGHBOR_FRONT from rfl]
      rw [condMark_neighbors_pos _ _ hcnd NEIGHBOR_FRONT]
      rw [condMark_neighbors_ne _ _ _ _ (show (NEIGHBOR_FRONT : Fin 6) ≠ NEIGHBOR_BACK from by decide)]
      rw [condMark_neighbors_ne _ _ _ _ (show (NEIGHBOR_FRONT : Fin 6) ≠ NEIGHBOR_TOP from by decide)]
      rw [condMark_neighbors_ne _ _ _ _ (show (NEIGHBOR_FRONT : Fin 6) ≠ NEIGHBOR_BOTTOM from by decide)]
      rw [condMark_neighbors_ne _ _ _ _ (show (NEIGHBOR_FRONT : Fin 6) ≠ NEIGHBOR_RIGHT from by decide)]
      rw [condMark_neighbors_ne _ _ _ _ (show (NEIGHBOR_FRONT : Fin 6) ≠ NEIGHBOR_LEFT from by decide)]
    · have hcnd : z = 0 := by
        simpa [boundaryNeighborTouched, NEIGHBOR_LEFT, NEIGHBOR_RIGHT, NEIGHBOR_BOTTOM,
          NEIGHBOR_TOP, NEIGHBOR_BACK, NEIGHBOR_FRONT] using hd
      rw [show (⟨1, by omega⟩ : Fin 6) = NEIGHBOR_BACK from rfl]
      rw [condMark_neighbors_ne _ _ _ _ (show (NEIGHBOR_BACK : Fin 6) ≠ NEIGHBOR_FRONT from by decide)]
      rw [condMark_neighbors_pos _ _ hcnd NEIGHBOR_BACK]
      rw [condMark_neighbors_ne _ _ _ _ (show (NEIGHBOR_BACK : Fin 6) ≠ NEIGHBOR_TOP from by decide)]
      rw [condMark_neighbors_ne _ _ _ _ (show (NEIGHBOR_BACK : Fin 6) ≠ NEIGHBOR_BOTTOM from by decide)]
      rw [condMark_neighbors_ne _ _ _ _ (show (NEIGHBOR_BACK : Fin 6) ≠ NEIGHBOR_RIGHT from by decide)]
      rw [condMark_neighbors_ne _ _ _ _ (show (NEIGHBOR_BACK : Fin 6) ≠ NEIGHBOR_LEFT from by decide)]
    · have hcnd : x = (CHUNK_SIZE : Int) - 1 := by
        simpa [boundaryNeighborTouched, NEIGHBOR_LEFT, NEIGHBOR_RIGHT, NEIGHBOR_BOTTOM,
          NEIGHBOR_TOP, NEIGHBOR_BACK, NEIGHBOR_FRONT] using hd
      rw [show (⟨2, by omega⟩ : Fin 6) = NEIGHBOR_RIGHT from rfl]
      rw [condMark_neighbors_ne _ _ _ _ (show (NEIGHBOR_RIGHT : Fin 6) ≠ NEIGHBOR_FRONT from by decide)]
      rw [condMark_neighbors_ne _ _ _ _ (show (NEIGHBOR_RIGHT : Fin 6) ≠ NEIGHBOR_BACK from by decide)]
      rw [condMark_neighbors_ne _ _ _ _ (show (NEIGHBOR_RIGHT : Fin 6) ≠ NEIGHBOR_TOP from by decide)]
      rw [condMark_neighbors_ne _ _ _ _ (show (NEIGHBOR_RIGHT : Fin 6) ≠ NEIGHBOR_BOTTOM from by decide)]
      rw [condMark_neighbors_pos _ _ hcnd NEIGHBOR_RIGHT]
      rw [condMark_neighbors_ne _ _ _ _ (show (NEIGHBOR_RIGHT : Fin 6) ≠ NEIGHBOR_LEFT from by decide)]
    · have hcnd : x = 0 := by
        simpa [boundaryNeighborTouched, NEIGHBOR_LEFT, NEIGHBOR_RIGHT, NEIGHBOR_BOTTOM,
          NEIGHBOR_TOP, NEIGHBOR_BACK, NEIGHBOR_FRONT] using hd
      rw [show (⟨3, by omega⟩ : Fin 6) = NEIGHBOR_LEFT from rfl]
      rw [condMark_neighbors_ne _ _ _ _ (show (NEIGHBOR_LEFT : Fin 6) ≠ NEIGHBOR_FRONT from by decide)]
      rw [condMark_neighbors_ne _ _ _ _ (show (NEIGHBOR_LEFT : Fin 6) ≠ NEIGHBOR_BACK from by decide)]
      rw [condMark_neighbors_ne _ _ _ _ (show (NEIGHBOR_LEFT : Fin 6) ≠ NEIGHBOR_TOP from by decide)]
      rw [condMark_neighbors_ne _ _ _ _ (show (NEIGHBOR_LEFT : Fin 6) ≠ NEIGHBOR_BOTTOM from by decide)]
      rw [condMark_neighbors_ne _ _ _ _ (show (NEIGHBOR_LEFT : Fin 6) ≠ NEIGHBOR_RIGHT from by decide)]
      rw [condMark_neighbors_pos _ _ hcnd NEIGHBOR_LEFT]
    · have hcnd : y = (CHUNK_HEIGHT : Int) - 1 := by
        simpa [boundaryNeighborTouched, NEIGHBOR_LEFT, NEIGHBOR_RIGHT, NEIGHBOR_BOTTOM,
          NEIGHBOR_TOP, NEIGHBOR_BACK, NEIGHBOR_FRONT] using hd
      rw [show (⟨4, by omega⟩ : Fin 6) = NEIGHBOR_TOP from rfl]
      rw [condMark_neighbors_ne _ _ _ _ (show (NEIGHBOR_TOP : Fin 6) ≠ NEIGHBOR_FRONT from by decide)]
      rw [condMark_neighbors_ne _ _ _ _ (show (NEIGHBOR_TOP : Fin 6) ≠ NEIGHBOR_BACK from by decide)]
      rw [condMark_neighbors_pos _ _ hcnd NEIGHBOR_TOP]
      rw [condMark_neighbors_ne _ _ _ _ (show (NEIGHBOR_TOP : Fin 6) ≠ NEIGHBOR_BOTTOM from by decide)]
      rw [condMark_neighbors_ne _ _ _ _ (show (NEIGHBOR_TOP : Fin 6) ≠ NEIGHBOR_RIGHT from by decide)]
      rw [condMark_neighbors_ne _ _ _ _ (show (NEIGHBOR_TOP : Fin 6) ≠ NEIGHBOR_LEFT from by decide)]
    · have hcnd : y = 0 := by
        simpa [boundaryNeighborTouched, NEIGHBOR_LEFT, NEIGHBOR_RIGHT, NEIGHBOR_BOTTOM,
          NEIGHBOR_TOP, NEIGHBOR_BACK, NEIGHBOR_FRONT] using hd
      rw [show (⟨5, by omega⟩ : Fin 6) = NEIGHBOR_BOTTOM from rfl]
      rw [condMark_neighbors_ne _ _ _ _ (show (NEIGHBOR_BOTTOM : Fin 6) ≠ NEIGHBOR_FRONT from by decide)]
      rw [condMark_neighbors_ne _ _ _ _ (show (NEIGHBOR_BOTTOM : Fin 6) ≠ NEIGHBOR_BACK from by decide)]
      rw [condMark_neighbors_ne _ _ _ _ (show (NEIGHBOR_BOTTOM : Fin 6) ≠ NEIGHBOR_TOP from by decide)]
      rw [condMark_neighbors_pos _ _ hcnd NEIGHBOR_BOTTOM]
      rw [condMark_neighbors_ne _ _ _ _ (show (NEIGHBOR_BOTTOM : Fin 6) ≠ NEIGHBOR_RIGHT from by decide)]
      rw [condMark_neighbors_ne _ _ _ _ (show (NEIGHBOR_BOTTOM : Fin 6) ≠ NEIGHBOR_LEFT from by decide)]

theorem claim_C5_witness :
    isInBounds 15 10 5 = true ∧
    exChunkEdge.voxels (coordsToIndex 15 10 5) ≠ VOXEL_AIR ∧
    ((exChunkEdge.setVoxel 15 10 5 VOXEL_AIR).is_dirty = true ∧
     (exChunkEdge.setVoxel 15 10 5 VOXEL_AIR).is_mesh_dirty = true ∧
     (exChunkEdge.setVoxel 15 10 5 VOXEL_AIR).version = exChunkEdge.version + 1 ∧
     ∀ d : Fin 6, boundaryNeighborTouched 15 10 5 d = true →
       (exChunkEdge.setVoxel 15 10 5 VOXEL_AIR).neighbors d =
         (exChunkEdge.neighbors d).map (fun nb => { nb with is_mesh_dirty := true })) :=
  ⟨by decide, by decide, claim_C5 exChunkEdge 15 10 5 VOXEL_AIR (by decide) (by decide)⟩

theorem terrainHeightF_nfNegative : terrainHeightF nfNegative 0 0 = ((-5/2 : ℚ) : ℝ) := by
  unfold terrainHeightF nfNegative
  rw [if_neg (by norm_num [clampNoise])]
  rw [show evalSpline continentalSpline (clampNoise (-1)) = 30 from by
        norm_num [evalSpline, evalSplineSearch, continentalSpline, clampNoise, lerp],
      show evalSpline erosionSpline (clampNoise (3/4)) = 65/2 from by
        norm_num [evalSpline, evalSplineSearch, erosionSpline, clampNoise, lerp]]
  norm_num

/-- Claim C4 counterexample: with noise fields making the spline height
−5/2, the code's `(int)` cast truncates toward zero and returns −2,
while the floor is −3, refuting the claim that the returned integer is
`floor(h)` for every input. -/
theorem claim_C4_counterexample :
    calculateTerrainHeightAtNoise nfNegative 0 0 = -2 ∧
    ⌊terrainHeightF nfNegative 0 0⌋ = -3 ∧
    calculateTerrainHeightAtNoise nfNegative 0 0 ≠ ⌊terrainHeightF nfNegative 0 0⌋ := by
  have h1 : calculateTerrainHeightAtNoise nfNegative 0 0 = -2 := by
    unfold calculateTerrainHeightAtNoise floatToIntCast
    rw [terrainHeightF_nfNegative]
    rw [if_neg (by push_cast; norm_num)]
    rw [show -(((-5/2 : ℚ) : ℝ)) = (((5/2 : ℚ)) : ℝ) from by push_cast; ring]
    rw [Rat.floor_cast]
    norm_num [Int.floor_eq_iff]
  have h2 : ⌊terrainHeightF nfNegative 0 0⌋ = -3 := by
    rw [terrainHeightF_nfNegative, Rat.floor_cast]
    norm_num [Int.floor_eq_iff]
  exact ⟨h1, h2, by rw [h1, h2]; decide⟩

/-- Claim C4 (amended): the terrain height function returns the `(int)`
truncation of the real-valued spline height, which coincides with
`floor(h)` exactly when `h ≥ 0`. -/
theorem claim_C4 (noise : VoxelNoiseFields) (worldX worldZ : Int)
    (h : 0 ≤ terrainHeightF noise worldX worldZ) :
    calculateTerrainHeightAtNoise noise worldX worldZ =
      ⌊terrainHeightF noise worldX worldZ⌋ := by
  unfold calculateTerrainHeightAtNoise floatToIntCast
  rw [if_pos h]

theorem terrainHeightF_nfZero : terrainHeightF nfZero 0 0 = ((70 : ℚ) : ℝ) := by
  unfold terrainHeightF nfZero
  rw [if_pos (by norm_num [clampNoise])]
  rw [show evalSpline continentalSpline (clampNoise 0) = 80 from by
        norm_num [evalSpline, evalSplineSearch, continentalSpline, clampNoise, lerp],
      show evalSpline erosionSpline (clampNoise 0) = 10 from by
        norm_num [evalSpline, evalSplineSearch, erosionSpline, clampNoise, lerp]]
  rw [show clampNoise (0 : ℚ) = 0 from by norm_num [clampNoise]]
  norm_num [Real.sqrt_zero]

theorem claim_C4_witness :
    0 ≤ terrainHeightF nfZero 0 0 ∧
    calculateTerrainHeightAtNoise nfZero 0 0 = ⌊terrainHeightF nfZero 0 0⌋ := by
  have h0 : 0 ≤ terrainHeightF nfZero 0 0 := by
    rw [terrainHeightF_nfZero]; norm_num
  exact ⟨h0, claim_C4 nfZero 0 0 h0⟩

/-! ## C2 machinery -/

theorem codeBlockRule_eq_spec (worldY h : Int) :
    (if worldY < h - 3 then VOXEL_STONE
     else if worldY < h - 1 then VOXEL_DIRT
     else if worldY < h then VOXEL_GRASS
     else if worldY ≤ WATER_LEVEL ∧ worldY ≥ h then VOXEL_WATER
     else VOXEL_AIR) = specBlockRule worldY h := by
  unfold specBlockRule
  split_ifs <;> first | rfl | omega

theorem coordsToIndex_inj (x y z x' y' z' : Int)
    (hx : 0 ≤ x ∧ x < CHUNK_SIZE) (hy : 0 ≤ y ∧ y < CHUNK_HEIGHT) (hz : 0 ≤ z ∧ z < CHUNK_SIZE)
    (hx' : 0 ≤ x' ∧ x' < CHUNK_SIZE) (hy' : 0 ≤ y' ∧ y' < CHUNK_HEIGHT)
    (hz' : 0 ≤ z' ∧ z' < CHUNK_SIZE)
    (h : coordsToIndex x y z = coordsToIndex x' y' z') : x = x' ∧ y = y' ∧ z = z' := by
  unfold coordsToIndex CHUNK_SIZE CHUNK_HEIGHT at *
  omega

theorem isInBounds_of_range (x y z : Int)
    (hx : 0 ≤ x ∧ x < CHUNK_SIZE) (hy : 0 ≤ y ∧ y < CHUNK_HEIGHT)
    (hz : 0 ≤ z ∧ z < CHUNK_SIZE) : isInBounds x y z = true := by
  simp only [isInBounds, Bool.and_eq_true, decide_eq_true_eq]
  exact ⟨⟨⟨⟨⟨hx.1, hx.2⟩, hy.1⟩, hy.2⟩, hz.1⟩, hz.2⟩

theorem foldl_preserves_proj {α β γ : Type} (F : β → γ) (f : β → α → β)
    (h : ∀ b a, F (f b a) = F b) : ∀ (l : List α) (b : β), F (l.foldl f b) = F b := by
  intro l
  induction l with
  | nil => intro b; rfl
  | cons a l ih => intro b; rw [List.foldl_cons, ih, h]

theorem foldl_setVoxel_voxels_frame (x z : Int) (g : Nat → VoxelID) (ys : List Nat) :
    ∀ (c0 : VoxelChunk) (i : Int), (∀ yn ∈ ys, i ≠ coordsToIndex x (yn : Int) z) →
      (ys.foldl (fun cc yn => cc.setVoxel x (yn : Int) z (g yn)) c0).voxels i = c0.voxels i := by
  induction ys with
  | nil => intro c0 i _; rfl
  | cons y ys ih =>
      intro c0 i h
      rw [List.foldl_cons, ih _ i (fun yn hm => h yn (List.mem_cons_of_mem _ hm))]
      rw [setVoxel_voxels]
      simp [h y (List.mem_cons_self _ _)]

theorem foldl_setVoxel_voxels_val (x z : Int) (g : Nat → VoxelID) (ys : List Nat)
    (hx : 0 ≤ x ∧ x < CHUNK_SIZE) (hz : 0 ≤ z ∧ z < CHUNK_SIZE)
    (hys : ∀ yn ∈ ys, yn < CHUNK_HEIGHT) :
    ∀ (c0 : VoxelChunk) (y0 : Nat), y0 ∈ ys →
      (ys.foldl (fun cc yn => cc.setVoxel x (yn : Int) z (g yn)) c0).voxels
          (coordsToIndex x (y0 : Int) z) = g y0 := by
  induction ys with
  | nil => intro c0 y0 hm; exact absurd hm (List.not_mem_nil _)
  | cons y ys ih =>
      intro c0 y0 hm
      rw [List.foldl_cons]
      by_cases hmem : y0 ∈ ys
      · exact ih (fun yn h => hys yn (List.mem_cons_of_mem _ h)) _ y0 hmem
      · have hy0 : y0 = y := by
          rcases List.mem_cons.mp hm with h | h
          · exact h
          · exact absurd h hmem
        subst hy0
        have hb : y0 < CHUNK_HEIGHT := hys y0 (List.mem_cons_self _ _)
        rw [foldl_setVoxel_voxels_frame]
        · rw [setVoxel_voxels]
          rw [if_pos ⟨isInBounds_of_range x (y0 : Int) z hx (by omega) hz, rfl⟩]
        · intro yn hyn hEq
          have hbn : yn < CHUNK_HEIGHT := hys yn (List.mem_cons_of_mem _ hyn)
          have := coordsToIndex_inj x (y0 : Int) z x (yn : Int) z hx (by omega) hz hx
            (by omega) hz hEq
          have : y0 = yn := by omega
          exact hmem (this ▸ hyn)

theorem generateColumnStep_def (t wpy x z : Int) (cc : VoxelChunk) (yn : Nat) :
    VoxelChunk.generateColumnStep t wpy x z cc yn =
      cc.setVoxel x (yn : Int) z
        (if wpy + (yn : Int) < t - 3 then VOXEL_STONE
         else if wpy + (yn : Int) < t - 1 then VOXEL_DIRT
         else if wpy + (yn : Int) < t then VOXEL_GRASS
         else if wpy + (yn : Int) ≤ WATER_LEVEL ∧ wpy + (yn : Int) ≥ t then VOXEL_WATER
         else VOXEL_AIR) := rfl

theorem generateColumnFill_position (c : VoxelChunk) (wpy x z : Int) :
    (c.generateColumnFill wpy x z).position = c.position := by
  unfold VoxelChunk.generateColumnFill
  exact foldl_preserves_proj VoxelChunk.position _
    (fun b a => by rw [generateColumnStep_def]; exact setVoxel_position b x (a : Int) z _) _ _

theorem generateColumnFill_noise_generator (c : VoxelChunk) (wpy x z : Int) :
    (c.generateColumnFill wpy x z).noise_generator = c.noise_generator := by
  unfold VoxelChunk.generateColumnFill
  exact foldl_preserves_proj VoxelChunk.noise_generator _
    (fun b a => by rw [generateColumnStep_def]; exact setVoxel_noise_generator b x (a : Int) z _) _ _

theorem generateColumnFill_extended (c : VoxelChunk) (wpy x z : Int) :
    (c.generateColumnFill wpy x z).extended_terrain_heights = c.extended_terrain_heights := by
  unfold VoxelChunk.generateColumnFill
  exact foldl_preserves_proj VoxelChunk.extended_terrain_heights _
    (fun b a => by rw [generateColumnStep_def]; exact setVoxel_extended b x (a : Int) z _) _ _

theorem generateColumnFill_has_extended (c : VoxelChunk) (wpy x z : Int) :
    (c.generateColumnFill wpy x z).has_extended_noise_cache = c.has_extended_noise_cache := by
  unfold VoxelChunk.generateColumnFill
  exact foldl_preserves_proj VoxelChunk.has_extended_noise_cache _
    (fun b a => by rw [generateColumnStep_def]; exact setVoxel_has_extended b x (a : Int) z _) _ _

theorem getTerrainHeightFromCache_congr (c c' : VoxelChunk)
    (h1 : c'.has_extended_noise_cache = c.has_extended_noise_cache)
    (h2 : c'.extended_terrain_heights = c.extended_terrain_heights)
    (h3 : c'.noise_generator = c.noise_generator)
    (h4 : c'.position = c.position) (x z : Int) :
    c'.getTerrainHeightFromCache x z = c.getTerrainHeightFromCache x z := by
  unfold VoxelChunk.getTerrainHeightFromCache VoxelChunk.calculateTerrainHeightAt
  rw [h1, h2, h3, h4]

theorem generateColumnFill_heights (c : VoxelChunk) (wpy x z x' z' : Int) :
    (c.generateColumnFill wpy x z).getTerrainHeightFromCache x' z' =
      c.getTerrainHeightFromCache x' z' :=
  getTerrainHeightFromCache_congr _ _ (generateColumnFill_has_extended c wpy x z)
    (generateColumnFill_extended c wpy x z) (generateColumnFill_noise_generator c wpy x z)
    (generateColumnFill_position c wpy x z) x' z'

theorem generateColumnFill_voxels_self (c : VoxelChunk) (wpy x z : Int)
    (hx : 0 ≤ x ∧ x < CHUNK_SIZE) (hz : 0 ≤ z ∧ z < CHUNK_SIZE)
    (y0 : Nat) (hy0 : y0 < CHUNK_HEIGHT) :
    (c.generateColumnFill wpy x z).voxels (coordsToIndex x (y0 : Int) z) =
      specBlockRule (wpy + (y0 : Int)) (c.getTerrainHeightFromCache x z) := by
  simp only [VoxelChunk.generateColumnFill]
  rw [← codeBlockRule_eq_spec]
  rw [show VoxelChunk.generateColumnStep (c.getTerrainHeightFromCache x z) wpy x z =
      (fun cc yn => cc.setVoxel x (yn : Int) z
        (if wpy + (yn : Int) < c.getTerrainHeightFromCache x z - 3 then VOXEL_STONE
         else if wpy + (yn : Int) < c.getTerrainHeightFromCache x z - 1 then VOXEL_DIRT
         else if wpy + (yn : Int) < c.getTerrainHeightFromCache x z then VOXEL_GRASS
         else if wpy + (yn : Int) ≤ WATER_LEVEL ∧
             wpy + (yn : Int) ≥ c.getTerrainHeightFromCache x z then VOXEL_WATER
         else VOXEL_AIR)) from rfl]
  exact foldl_setVoxel_voxels_val x z _
    (List.range CHUNK_HEIGHT) hx hz (fun yn h => List.mem_range.mp h) _ y0
    (List.mem_range.mpr hy0)

theorem generateColumnFill_voxels_frame (c : VoxelChunk) (wpy x z : Int) (i : Int)
    (h : ∀ yn : Nat, yn < CHUNK_HEIGHT → i ≠ coordsToIndex x (yn : Int) z) :
    (c.generateColumnFill wpy x z).voxels i = c.voxels i := by
  simp only [VoxelChunk.generateColumnFill]
  rw [show VoxelChunk.generateColumnStep (c.getTerrainHeightFromCache x z) wpy x z =
      (fun cc yn => cc.setVoxel x (yn : Int) z
        (if wpy + (yn : Int) < c.getTerrainHeightFromCache x z - 3 then VOXEL_STONE
         else if wpy + (yn : Int) < c.getTerrainHeightFromCache x z - 1 then VOXEL_DIRT
         else if wpy + (yn : Int) < c.getTerrainHeightFromCache x z then VOXEL_GRASS
         else if wpy + (yn : Int) ≤ WATER_LEVEL ∧
             wpy + (yn : Int) ≥ c.getTerrainHeightFromCache x z then VOXEL_WATER
         else VOXEL_AIR)) from rfl]
  exact foldl_setVoxel_voxels_frame x z _ (List.range CHUNK_HEIGHT) _ i
    (fun yn hm => h yn (List.mem_range.mp hm))

theorem zfold_position (wpy x : Int) (zs : List Nat) (c0 : VoxelChunk) :
    (zs.foldl (fun cz zn => cz.generateColumnFill wpy x (zn : Int)) c0).position =
      c0.position :=
  foldl_preserves_proj _ _ (fun b (a : Nat) => generateColumnFill_position b wpy x (a : Int)) zs c0

theorem zfold_noise_generator (wpy x : Int) (zs : List Nat) (c0 : VoxelChunk) :
    (zs.foldl (fun cz zn => cz.generateColumnFill wpy x (zn : Int)) c0).noise_generator =
      c0.noise_generator :=
  foldl_preserves_proj _ _ (fun b (a : Nat) => generateColumnFill_noise_generator b wpy x (a : Int)) zs c0

theorem zfold_extended (wpy x : Int) (zs : List Nat) (c0 : VoxelChunk) :
    (zs.foldl (fun cz zn => cz.generateColumnFill wpy x (zn : Int)) c0).extended_terrain_heights =
      c0.extended_terrain_heights :=
  foldl_preserves_proj _ _ (fun b (a : Nat) => generateColumnFill_extended b wpy x (a : Int)) zs c0

theorem zfold_has_extended (wpy x : Int) (zs : List Nat) (c0 : VoxelChunk) :
    (zs.foldl (fun cz zn => cz.generateColumnFill wpy x (zn : Int)) c0).has_extended_noise_cache =
      c0.has_extended_noise_cache :=
  foldl_preserves_proj _ _ (fun b (a : Nat) => generateColumnFill_has_extended b wpy x (a : Int)) zs c0

theorem zfold_heights (wpy x : Int) (zs : List Nat) (c0 : VoxelChunk) (x' z' : Int) :
    (zs.foldl (fun cz zn => cz.generateColumnFill wpy x (zn : Int)) c0).getTerrainHeightFromCache
        x' z' = c0.getTerrainHeightFromCache x' z' :=
  getTerrainHeightFromCache_congr _ _ (zfold_has_extended wpy x zs c0) (zfold_extended wpy x zs c0)
    (zfold_noise_generator wpy x zs c0) (zfold_position wpy x zs c0) x' z'

theorem zfold_voxels_frame (wpy x : Int) (zs : List Nat) :
    ∀ (c0 : VoxelChunk) (i : Int),
      (∀ zn ∈ zs, ∀ yn : Nat, yn < CHUNK_HEIGHT → i ≠ coordsToIndex x (yn : Int) (zn : Int)) →
      (zs.foldl (fun cz zn => cz.generateColumnFill wpy x (zn : Int)) c0).voxels i =
        c0.voxels i := by
  induction zs with
  | nil => intro c0 i _; rfl
  | cons z zs ih =>
      intro c0 i h
      rw [List.foldl_cons, ih _ i (fun zn hm => h zn (List.mem_cons_of_mem _ hm))]
      exact generateColumnFill_voxels_frame c0 wpy x (z : Int) i
        (fun yn hyn => h z (List.mem_cons_self _ _) yn hyn)

theorem zfold_voxels_val (wpy x : Int) (hx : 0 ≤ x ∧ x < CHUNK_SIZE) (zs : List Nat)
    (hzs : ∀ zn ∈ zs, zn < CHUNK_SIZE) :
    ∀ (c0 : VoxelChunk) (z0 y0 : Nat), z0 ∈ zs → y0 < CHUNK_HEIGHT →
      (zs.foldl (fun cz zn => cz.generateColumnFill wpy x (zn : Int)) c0).voxels
          (coordsToIndex x (y0 : Int) (z0 : Int)) =
        specBlockRule (wpy + (y0 : Int)) (c0.getTerrainHeightFromCache x (z0 : Int)) := by
  induction zs with
  | nil => intro c0 z0 y0 hm; exact absurd hm (List.not_mem_nil _)
  | cons z zs ih =>
      intro c0 z0 y0 hz0 hy0
      rw [List.foldl_cons]
      by_cases hmem : z0 ∈ zs
      · rw [ih (fun zn h => hzs zn (List.mem_cons_of_mem _ h)) _ z0 y0 hmem hy0,
          generateColumnFill_heights]
      · have hzz : z0 = z := by
          rcases List.mem_cons.mp hz0 with h | h
          · exact h
          · exact absurd h hmem
        subst hzz
        have hzb : z0 < CHUNK_SIZE := hzs z0 (List.mem_cons_self _ _)
        rw [zfold_voxels_frame]
        · exact generateColumnFill_voxels_self c0 wpy x (z0 : Int) hx (by omega) y0 hy0
        · intro zn hzn yn hyn hEq
          have hznb : zn < CHUNK_SIZE := hzs zn (List.mem_cons_of_mem _ hzn)
          have hinj := coordsToIndex_inj x (y0 : Int) (z0 : Int) x (yn : Int) (zn : Int)
            hx (by omega) (by omega) hx (by omega) (by omega) hEq
          have : z0 = zn := by omega
          exact hmem (this ▸ hzn)

theorem xfold_heights (wpy : Int) (xs : List Nat) (c0 : VoxelChunk) (x' z' : Int) :
    (xs.foldl (fun cx xn => (List.range CHUNK_SIZE).foldl
        (fun cz zn => cz.generateColumnFill wpy (xn : Int) (zn : Int)) cx) c0).getTerrainHeightFromCache
      x' z' = c0.getTerrainHeightFromCache x' z' := by
  refine getTerrainHeightFromCache_congr _ _ ?_ ?_ ?_ ?_ x' z'
  · exact foldl_preserves_proj _ _
      (fun b (a : Nat) => zfold_has_extended wpy (a : Int) (List.range CHUNK_SIZE) b) xs c0
  · exact foldl_preserves_proj _ _
      (fun b (a : Nat) => zfold_extended wpy (a : Int) (List.range CHUNK_SIZE) b) xs c0
  · exact foldl_preserves_proj _ _
      (fun b (a : Nat) => zfold_noise_generator wpy (a : Int) (List.range CHUNK_SIZE) b) xs c0
  · exact foldl_preserves_proj _ _
      (fun b (a : Nat) => zfold_position wpy (a : Int) (List.range CHUNK_SIZE) b) xs c0

theorem xfold_voxels_frame (wpy : Int) (xs : List Nat) :
    ∀ (c0 : VoxelChunk) (i : Int),
      (∀ xn ∈ xs, ∀ zn : Nat, zn < CHUNK_SIZE → ∀ yn : Nat, yn < CHUNK_HEIGHT →
        i ≠ coordsToIndex (xn : Int) (yn : Int) (zn : Int)) →
      (xs.foldl (fun cx xn => (List.range CHUNK_SIZE).foldl
          (fun cz zn => cz.generateColumnFill wpy (xn : Int) (zn : Int)) cx) c0).voxels i =
        c0.voxels i := by
  induction xs with
  | nil => intro c0 i _; rfl
  | cons x xs ih =>
      intro c0 i h
      rw [List.foldl_cons, ih _ i (fun xn hm => h xn (List.mem_cons_of_mem _ hm))]
      exact zfold_voxels_frame wpy (x : Int) (List.range CHUNK_SIZE) c0 i
        (fun zn hzn yn hyn =>
          h x (List.mem_cons_self _ _) zn (List.mem_range.mp hzn) yn hyn)

theorem xfold_voxels_val (wpy : Int) (xs : List Nat) (hxs : ∀ xn ∈ xs, xn < CHUNK_SIZE) :
    ∀ (c0 : VoxelChunk) (x0 z0 y0 : Nat), x0 ∈ xs → z0 < CHUNK_SIZE → y0 < CHUNK_HEIGHT →
      (xs.foldl (fun cx xn => (List.range CHUNK_SIZE).foldl
          (fun cz zn => cz.generateColumnFill wpy (xn : Int) (zn : Int)) cx) c0).voxels
        (coordsToIndex (x0 : Int) (y0 : Int) (z0 : Int)) =
      specBlockRule (wpy + (y0 : Int)) (c0.getTerrainHeightFromCache (x0 : Int) (z0 : Int)) := by
  induction xs with
  | nil => intro c0 x0 z0 y0 hm; exact absurd hm (List.not_mem_nil _)
  | cons x xs ih =>
      intro c0 x0 z0 y0 hx0 hz0 hy0
      rw [List.foldl_cons]
      by_cases hmem : x0 ∈ xs
      · rw [ih (fun xn h => hxs xn (List.mem_cons_of_mem _ h)) _ x0 z0 y0 hmem hz0 hy0,
          zfold_heights]
      · have hxx : x0 = x := by
          rcases List.mem_cons.mp hx0 with h | h
          · exact h
          · exact absurd h hmem
        subst hxx
        have hxb : x0 < CHUNK_SIZE := hxs x0 (List.mem_cons_self _ _)
        rw [xfold_voxels_frame]
        · exact zfold_voxels_val wpy (x0 : Int) (by omega) (List.range CHUNK_SIZE)
            (fun zn h => List.mem_range.mp h) c0 z0 y0 (List.mem_range.mpr hz0) hy0
        · intro xn hxn zn hzn yn hyn hEq
          have hxnb : xn < CHUNK_SIZE := hxs xn (List.mem_cons_of_mem _ hxn)
          have hinj := coordsToIndex_inj (x0 : Int) (y0 : Int) (z0 : Int)
            (xn : Int) (yn : Int) (zn : Int) (by omega) (by omega) (by omega)
            (by omega) (by omega) (by omega) hEq
          have : x0 = xn := by omega
          exact hmem (this ▸ hxn)

theorem xfold_position (wpy : Int) (xs : List Nat) (c0 : VoxelChunk) :
    (xs.foldl (fun cx xn => (List.range CHUNK_SIZE).foldl
        (fun cz zn => cz.generateColumnFill wpy (xn : Int) (zn : Int)) cx) c0).position =
      c0.position :=
  foldl_preserves_proj _ _
    (fun b (a : Nat) => zfold_position wpy (a : Int) (List.range CHUNK_SIZE) b) xs c0

theorem generateExpectedVoxelFromCache_oob (c : VoxelChunk) (x y z : Int)
    (h : isInBounds x y z = false) :
    c.generateExpectedVoxelFromCache x y z =
      specBlockRule (c.position.y * CHUNK_HEIGHT + y) (c.getTerrainHeightFromCache x z) := by
  unfold VoxelChunk.generateExpectedVoxelFromCache
  rw [if_neg (by simp [h])]
  exact codeBlockRule_eq_spec _ _

theorem cacheColumnStep_extended (f : Int → Int → Int) (xi : Nat) (cb : VoxelChunk)
    (zi : Nat) (i : Int) :
    (VoxelChunk.cacheColumnStep f xi cb zi).extended_terrain_heights i =
      if i = ((xi : Int) - 1 + 1) * ((CHUNK_SIZE : Int) + 2) + ((zi : Int) - 1 + 1) then
        f (cb.position.x * CHUNK_SIZE + ((xi : Int) - 1))
          (cb.position.z * CHUNK_SIZE + ((zi : Int) - 1))
      else cb.extended_terrain_heights i := rfl

theorem cacheColumnStep_position (f : Int → Int → Int) (xi : Nat) (cb : VoxelChunk) (zi : Nat) :
    (VoxelChunk.cacheColumnStep f xi cb zi).position = cb.position := rfl

theorem cacheColumnStep_noise_generator (f : Int → Int → Int) (xi : Nat) (cb : VoxelChunk)
    (zi : Nat) :
    (VoxelChunk.cacheColumnStep f xi cb zi).noise_generator = cb.noise_generator := rfl

theorem cacheColumnStep_voxels (f : Int → Int → Int) (xi : Nat) (cb : VoxelChunk) (zi : Nat) :
    (VoxelChunk.cacheColumnStep f xi cb zi).voxels = cb.voxels := rfl

theorem zcache_position (f : Int → Int → Int) (xi : Nat) (zis : List Nat) (c0 : VoxelChunk) :
    (zis.foldl (VoxelChunk.cacheColumnStep f xi) c0).position = c0.position :=
  foldl_preserves_proj _ _ (fun b a => cacheColumnStep_position f xi b a) zis c0

theorem xcache_position (f : Int → Int → Int) (xis : List Nat) (c0 : VoxelChunk) :
    (xis.foldl (fun ca xi => (List.range (CHUNK_SIZE + 2)).foldl
        (VoxelChunk.cacheColumnStep f xi) ca) c0).position = c0.position :=
  foldl_preserves_proj _ _
    (fun b (a : Nat) => zcache_position f a (List.range (CHUNK_SIZE + 2)) b) xis c0

theorem zcache_noise_generator (f : Int → Int → Int) (xi : Nat) (zis : List Nat)
    (c0 : VoxelChunk) :
    (zis.foldl (VoxelChunk.cacheColumnStep f xi) c0).noise_generator = c0.noise_generator :=
  foldl_preserves_proj _ _ (fun b a => cacheColumnStep_noise_generator f xi b a) zis c0

theorem xcache_noise_generator (f : Int → Int → Int) (xis : List Nat) (c0 : VoxelChunk) :
    (xis.foldl (fun ca xi => (List.range (CHUNK_SIZE + 2)).foldl
        (VoxelChunk.cacheColumnStep f xi) ca) c0).noise_generator = c0.noise_generator :=
  foldl_preserves_proj _ _
    (fun b (a : Nat) => zcache_noise_generator f a (List.range (CHUNK_SIZE + 2)) b) xis c0

theorem zcache_extended_frame (f : Int → Int → Int) (xi : Nat) (zis : List Nat) :
    ∀ (c0 : VoxelChunk) (i : Int),
      (∀ zi ∈ zis, i ≠ ((xi : Int) - 1 + 1) * ((CHUNK_SIZE : Int) + 2) + ((zi : Int) - 1 + 1)) →
      (zis.foldl (VoxelChunk.cacheColumnStep f xi) c0).extended_terrain_heights i =
        c0.extended_terrain_heights i := by
  induction zis with
  | nil => intro c0 i _; rfl
  | cons zi zis ih =>
      intro c0 i h
      rw [List.foldl_cons, ih _ i (fun a hm => h a (List.mem_cons_of_mem _ hm)),
        cacheColumnStep_extended]
      rw [if_neg (h zi (List.mem_cons_self _ _))]

theorem zcache_extended_val (f : Int → Int → Int) (xi : Nat) (zis : List Nat)
    (hzis : ∀ zi ∈ zis, zi < CHUNK_SIZE + 2) :
    ∀ (c0 : VoxelChunk) (zi0 : Nat), zi0 ∈ zis →
      (zis.foldl (VoxelChunk.cacheColumnStep f xi) c0).extended_terrain_heights
          (((xi : Int) - 1 + 1) * ((CHUNK_SIZE : Int) + 2) + ((zi0 : Int) - 1 + 1)) =
        f (c0.position.x * CHUNK_SIZE + ((xi : Int) - 1))
          (c0.position.z * CHUNK_SIZE + ((zi0 : Int) - 1)) := by
  induction zis with
  | nil => intro c0 zi0 hm; exact absurd hm (List.not_mem_nil _)
  | cons zi zis ih =>
      intro c0 zi0 hm
      rw [List.foldl_cons]
      by_cases hmem : zi0 ∈ zis
      · rw [ih (fun a h => hzis a (List.mem_cons_of_mem _ h)) _ zi0 hmem,
          cacheColumnStep_position]
      · have hzz : zi0 = zi := by
          rcases List.mem_cons.mp hm with h | h
          · exact h
          · exact absurd h hmem
        subst hzz
        rw [zcache_extended_frame]
        · rw [cacheColumnStep_extended, if_pos rfl]
        · intro a ha hEq
          have : zi0 = a := by
            unfold CHUNK_SIZE at hEq
            omega
          exact hmem (this ▸ ha)

theorem xcache_extended_frame (f : Int → Int → Int) (xis : List Nat) :
    ∀ (c0 : VoxelChunk) (i : Int),
      (∀ xi ∈ xis, ∀ zi : Nat, zi < CHUNK_SIZE + 2 →
        i ≠ ((xi : Int) - 1 + 1) * ((CHUNK_SIZE : Int) + 2) + ((zi : Int) - 1 + 1)) →
      (xis.foldl (fun ca xi => (List.range (CHUNK_SIZE + 2)).foldl
          (VoxelChunk.cacheColumnStep f xi) ca) c0).extended_terrain_heights i =
        c0.extended_terrain_heights i := by
  induction xis with
  | nil => intro c0 i _; rfl
  | cons xi xis ih =>
      intro c0 i h
      rw [List.foldl_cons, ih _ i (fun a hm => h a (List.mem_cons_of_mem _ hm))]
      exact zcache_extended_frame f xi (List.range (CHUNK_SIZE + 2)) c0 i
        (fun zi hzi => h xi (List.mem_cons_self _ _) zi (List.mem_range.mp hzi))

theorem xcache_extended_val (f : Int → Int → Int) (xis : List Nat)
    (hxis : ∀ xi ∈ xis, xi < CHUNK_SIZE + 2) :
    ∀ (c0 : VoxelChunk) (xi0 zi0 : Nat), xi0 ∈ xis → zi0 < CHUNK_SIZE + 2 →
      (xis.foldl (fun ca xi => (List.range (CHUNK_SIZE + 2)).foldl
          (VoxelChunk.cacheColumnStep f xi) ca) c0).extended_terrain_heights
          (((xi0 : Int) - 1 + 1) * ((CHUNK_SIZE : Int) + 2) + ((zi0 : Int) - 1 + 1)) =
        f (c0.position.x * CHUNK_SIZE + ((xi0 : Int) - 1))
          (c0.position.z * CHUNK_SIZE + ((zi0 : Int) - 1)) := by
  induction xis with
  | nil => intro c0 xi0 zi0 hm; exact absurd hm (List.not_mem_nil _)
  | cons xi xis ih =>
      intro c0 xi0 zi0 hm hz
      rw [List.foldl_cons]
      by_cases hmem : xi0 ∈ xis
      · rw [ih (fun a h => hxis a (List.mem_cons_of_mem _ h)) _ xi0 zi0 hmem hz,
          zcache_position]
      · have hxx : xi0 = xi := by
          rcases List.mem_cons.mp hm with h | h
          · exact h
          · exact absurd h hmem
        subst hxx
        rw [xcache_extended_frame]
        · exact zcache_extended_val f xi0 (List.range (CHUNK_SIZE + 2))
            (fun a h => List.mem_range.mp h) c0 zi0 (List.mem_range.mpr hz)
        · intro a ha zi hzi hEq
          have : xi0 = a := by
            unfold CHUNK_SIZE at hEq hz hzi
            omega
          exact hmem (this ▸ ha)

theorem xfold_noise_generator (wpy : Int) (xs : List Nat) (c0 : VoxelChunk) :
    (xs.foldl (fun cx xn => (List.range CHUNK_SIZE).foldl
        (fun cz zn => cz.generateColumnFill wpy (xn : Int) (zn : Int)) cx) c0).noise_generator =
      c0.noise_generator :=
  foldl_preserves_proj _ _
    (fun b (a : Nat) => zfold_noise_generator wpy (a : Int) (List.range CHUNK_SIZE) b) xs c0

theorem xfold_extended (wpy : Int) (xs : List Nat) (c0 : VoxelChunk) :
    (xs.foldl (fun cx xn => (List.range CHUNK_SIZE).foldl
        (fun cz zn => cz.generateColumnFill wpy (xn : Int) (zn : Int)) cx)
        c0).extended_terrain_heights = c0.extended_terrain_heights :=
  foldl_preserves_proj _ _
    (fun b (a : Nat) => zfold_extended wpy (a : Int) (List.range CHUNK_SIZE) b) xs c0

theorem xfold_has_extended (wpy : Int) (xs : List Nat) (c0 : VoxelChunk) :
    (xs.foldl (fun cx xn => (List.range CHUNK_SIZE).foldl
        (fun cz zn => cz.generateColumnFill wpy (xn : Int) (zn : Int)) cx)
        c0).has_extended_noise_cache = c0.has_extended_noise_cache :=
  foldl_preserves_proj _ _
    (fun b (a : Nat) => zfold_has_extended wpy (a : Int) (List.range CHUNK_SIZE) b) xs c0

theorem calculateExtendedNoiseCache_position (c : VoxelChunk) :
    c.calculateExtendedNoiseCache.position = c.position := by
  unfold VoxelChunk.calculateExtendedNoiseCache
  cases h : c.noise_generator
  · rfl
  · simp only [xcache_position]

theorem calculateExtendedNoiseCache_getTerrain (c : VoxelChunk) (f : Int → Int → Int)
    (hf : c.noise_generator = some f) (x z : Int) :
    c.calculateExtendedNoiseCache.getTerrainHeightFromCache x z =
      f (c.position.x * CHUNK_SIZE + x) (c.position.z * CHUNK_SIZE + z) := by
  unfold VoxelChunk.calculateExtendedNoiseCache
  rw [hf]
  simp only []
  unfold VoxelChunk.getTerrainHeightFromCache
  by_cases hrange : 0 ≤ x + 1 ∧ x + 1 < (CHUNK_SIZE : Int) + 2 ∧ 0 ≤ z + 1 ∧
      z + 1 < (CHUNK_SIZE : Int) + 2
  · rw [if_pos (by simp), if_pos hrange]
    have hxv : ((x + 1).toNat : Int) = x + 1 := Int.toNat_of_nonneg hrange.1
    have hzv : ((z + 1).toNat : Int) = z + 1 := Int.toNat_of_nonneg hrange.2.2.1
    have hxb : (x + 1).toNat < CHUNK_SIZE + 2 := by
      have := hrange.2.1
      unfold CHUNK_SIZE at *
      omega
    have hzb : (z + 1).toNat < CHUNK_SIZE + 2 := by
      have := hrange.2.2.2
      unfold CHUNK_SIZE at *
      omega
    have hval := xcache_extended_val f (List.range (CHUNK_SIZE + 2))
      (fun a h => List.mem_range.mp h) c ((x + 1).toNat) ((z + 1).toNat)
      (List.mem_range.mpr hxb) hzb
    rw [show (x + 1) * ((CHUNK_SIZE : Int) + 2) + (z + 1) =
          ((((x + 1).toNat : Int)) - 1 + 1) * ((CHUNK_SIZE : Int) + 2) +
            ((((z + 1).toNat : Int)) - 1 + 1) from by rw [hxv, hzv]; ring]
    rw [hval]
    rw [show (((x + 1).toNat : Int)) - 1 = x from by omega,
        show (((z + 1).toNat : Int)) - 1 = z from by omega]
  · rw [if_pos (by simp), if_neg hrange]
    unfold VoxelChunk.calculateTerrainHeightAt
    rw [show ((List.range (CHUNK_SIZE + 2)).foldl (fun ca xi =>
          (List.range (CHUNK_SIZE + 2)).foldl (VoxelChunk.cacheColumnStep f xi) ca)
          c).noise_generator = c.noise_generator from
        xcache_noise_generator f (List.range (CHUNK_SIZE + 2)) c]
    rw [hf]
    simp only []
    rw [show ((List.range (CHUNK_SIZE + 2)).foldl (fun ca xi =>
          (List.range (CHUNK_SIZE + 2)).foldl (VoxelChunk.cacheColumnStep f xi) ca)
          c).position = c.position from
        xcache_position f (List.range (CHUNK_SIZE + 2)) c]

attribute [irreducible] VoxelChunk.generateColumnFill VoxelChunk.cacheColumnStep

theorem generateFill_eq (wpy : Int) (c0 : VoxelChunk) :
    VoxelChunk.generateFill wpy c0 =
      (List.range CHUNK_SIZE).foldl (fun cx xn => (List.range CHUNK_SIZE).foldl
        (fun cz zn => cz.generateColumnFill wpy (xn : Int) (zn : Int)) cx) c0 := rfl

theorem generateFill_position (wpy : Int) (c0 : VoxelChunk) :
    (VoxelChunk.generateFill wpy c0).position = c0.position := by
  rw [generateFill_eq]
  exact xfold_position wpy (List.range CHUNK_SIZE) c0

theorem generateFill_noise_generator (wpy : Int) (c0 : VoxelChunk) :
    (VoxelChunk.generateFill wpy c0).noise_generator = c0.noise_generator := by
  rw [generateFill_eq]
  exact xfold_noise_generator wpy (List.range CHUNK_SIZE) c0

theorem generateFill_extended (wpy : Int) (c0 : VoxelChunk) :
    (VoxelChunk.generateFill wpy c0).extended_terrain_heights =
      c0.extended_terrain_heights := by
  rw [generateFill_eq]
  exact xfold_extended wpy (List.range CHUNK_SIZE) c0

theorem generateFill_has_extended (wpy : Int) (c0 : VoxelChunk) :
    (VoxelChunk.generateFill wpy c0).has_extended_noise_cache =
      c0.has_extended_noise_cache := by
  rw [generateFill_eq]
  exact xfold_has_extended wpy (List.range CHUNK_SIZE) c0

theorem generateFill_voxels_val (wpy : Int) (c0 : VoxelChunk) (x0 z0 y0 : Nat)
    (hx0 : x0 < CHUNK_SIZE) (hz0 : z0 < CHUNK_SIZE) (hy0 : y0 < CHUNK_HEIGHT) :
    (VoxelChunk.generateFill wpy c0).voxels
        (coordsToIndex (x0 : Int) (y0 : Int) (z0 : Int)) =
      specBlockRule (wpy + (y0 : Int))
        (c0.getTerrainHeightFromCache (x0 : Int) (z0 : Int)) := by
  rw [generateFill_eq]
  exact xfold_voxels_val wpy (List.range CHUNK_SIZE) (fun a h => List.mem_range.mp h)
    c0 x0 z0 y0 (List.mem_range.mpr hx0) hz0 hy0

attribute [irreducible] VoxelChunk.generateFill VoxelChunk.generateZLoop

theorem finalizeGenerate_position (cf : VoxelChunk) :
    (VoxelChunk.finalizeGenerate cf).position = cf.position := rfl

theorem finalizeGenerate_voxels (cf : VoxelChunk) :
    (VoxelChunk.finalizeGenerate cf).voxels = cf.voxels := rfl

theorem finalizeGenerate_has_extended (cf : VoxelChunk) :
    (VoxelChunk.finalizeGenerate cf).has_extended_noise_cache =
      cf.has_extended_noise_cache := rfl

theorem finalizeGenerate_extended (cf : VoxelChunk) :
    (VoxelChunk.finalizeGenerate cf).extended_terrain_heights =
      cf.extended_terrain_heights := rfl

theorem finalizeGenerate_noise_generator (cf : VoxelChunk) :
    (VoxelChunk.finalizeGenerate cf).noise_generator = cf.noise_generator := rfl

theorem generateBody_eq (noiseOf : Nat → Int → Int → Int) (c : VoxelChunk) (seed : Nat) :
    VoxelChunk.generateBody noiseOf c seed =
      VoxelChunk.finalizeGenerate (VoxelChunk.generateFill
        ((({ c with generation_seed := seed,
                    noise_generator := some (noiseOf seed) } :
            VoxelChunk).calculateExtendedNoiseCache).position.y * CHUNK_HEIGHT)
        (({ c with generation_seed := seed,
                   noise_generator := some (noiseOf seed) } :
           VoxelChunk).calculateExtendedNoiseCache)) := rfl

attribute [irreducible] VoxelChunk.generateBody

theorem generateBody_position (noiseOf : Nat → Int → Int → Int) (c : VoxelChunk)
    (seed : Nat) : (VoxelChunk.generateBody noiseOf c seed).position = c.position := by
  rw [generateBody_eq, finalizeGenerate_position, generateFill_position,
    calculateExtendedNoiseCache_position]

theorem generateBody_getTerrain (noiseOf : Nat → Int → Int → Int) (c : VoxelChunk)
    (seed : Nat) (x z : Int) :
    (VoxelChunk.generateBody noiseOf c seed).getTerrainHeightFromCache x z =
      noiseOf seed (c.position.x * CHUNK_SIZE + x) (c.position.z * CHUNK_SIZE + z) := by
  have h := getTerrainHeightFromCache_congr
      (({ c with generation_seed := seed,
                 noise_generator := some (noiseOf seed) } :
         VoxelChunk).calculateExtendedNoiseCache)
      (VoxelChunk.generateBody noiseOf c seed)
      (by rw [generateBody_eq, finalizeGenerate_has_extended, generateFill_has_extended])
      (by rw [generateBody_eq, finalizeGenerate_extended, generateFill_extended])
      (by rw [generateBody_eq, finalizeGenerate_noise_generator, generateFill_noise_generator])
      (by rw [generateBody_eq, finalizeGenerate_position, generateFill_position])
      x z
  rw [h]
  have h2 := calculateExtendedNoiseCache_getTerrain
      ({ c with generation_seed := seed,
                noise_generator := some (noiseOf seed) } : VoxelChunk)
      (noiseOf seed) rfl x z
  rw [h2]

theorem generateBody_voxels (noiseOf : Nat → Int → Int → Int) (c : VoxelChunk) (seed : Nat)
    (x z y : Nat) (hx : x < CHUNK_SIZE) (hz : z < CHUNK_SIZE) (hy : y < CHUNK_HEIGHT) :
    (VoxelChunk.generateBody noiseOf c seed).voxels
        (coordsToIndex (x : Int) (y : Int) (z : Int)) =
      specBlockRule (c.position.y * CHUNK_HEIGHT + (y : Int))
        (noiseOf seed (c.position.x * CHUNK_SIZE + (x : Int))
          (c.position.z * CHUNK_SIZE + (z : Int))) := by
  rw [generateBody_eq, finalizeGenerate_voxels]
  rw [generateFill_voxels_val _ _ x z y hx hz hy]
  rw [calculateExtendedNoiseCache_getTerrain
    ({ c with generation_seed := seed,
              noise_generator := some (noiseOf seed) } : VoxelChunk)
    (noiseOf seed) rfl]
  rw [calculateExtendedNoiseCache_position]

theorem generate_position (noiseOf : Nat → Int → Int → Int) (c : VoxelChunk) (seed : Nat) :
    (VoxelChunk.generate noiseOf c seed).position = c.position := by
  unfold VoxelChunk.generate
  by_cases hg : c.is_generated = true
  · rw [if_pos hg]
  · rw [if_neg hg, generateBody_position]

theorem generate_getTerrain (noiseOf : Nat → Int → Int → Int) (c : VoxelChunk) (seed : Nat)
    (hgen : c.is_generated = false) (x z : Int) :
    (VoxelChunk.generate noiseOf c seed).getTerrainHeightFromCache x z =
      noiseOf seed (c.position.x * CHUNK_SIZE + x) (c.position.z * CHUNK_SIZE + z) := by
  unfold VoxelChunk.generate
  rw [if_neg (by simp [hgen]), generateBody_getTerrain]

theorem generate_voxels (noiseOf : Nat → Int → Int → Int) (c : VoxelChunk) (seed : Nat)
    (hgen : c.is_generated = false) (x z y : Nat)
    (hx : x < CHUNK_SIZE) (hz : z < CHUNK_SIZE) (hy : y < CHUNK_HEIGHT) :
    (VoxelChunk.generate noiseOf c seed).voxels
        (coordsToIndex (x : Int) (y : Int) (z : Int)) =
      specBlockRule (c.position.y * CHUNK_HEIGHT + (y : Int))
        (noiseOf seed (c.position.x * CHUNK_SIZE + (x : Int))
          (c.position.z * CHUNK_SIZE + (z : Int))) := by
  unfold VoxelChunk.generate
  rw [if_neg (by simp [hgen]), generateBody_voxels noiseOf c seed x z y hx hz hy]

/-- Claim C2: every generated voxel follows the height/block rule, with
the terrain height taken from the noise field at the cell's world x/z
column; and the apron prediction for out-of-chunk lookups on the
generated chunk applies the same rule at the same height field. -/
theorem claim_C2 (noiseOf : Nat → Int → Int → Int) (c : VoxelChunk) (seed : Nat)
    (hgen : c.is_generated = false) (x z y : Nat)
    (hx : x < CHUNK_SIZE) (hz : z < CHUNK_SIZE) (hy : y < CHUNK_HEIGHT)
    (xo yo zo : Int) (ho : isInBounds xo yo zo = false) :
    (VoxelChunk.generate noiseOf c seed).voxels
        (coordsToIndex (x : Int) (y : Int) (z : Int)) =
      specBlockRule (c.position.y * CHUNK_HEIGHT + (y : Int))
        (noiseOf seed (c.position.x * CHUNK_SIZE + (x : Int))
          (c.position.z * CHUNK_SIZE + (z : Int))) ∧
    (VoxelChunk.generate noiseOf c seed).generateExpectedVoxelFromCache xo yo zo =
      specBlockRule (c.position.y * CHUNK_HEIGHT + yo)
        (noiseOf seed (c.position.x * CHUNK_SIZE + xo)
          (c.position.z * CHUNK_SIZE + zo)) := by
  refine ⟨generate_voxels noiseOf c seed hgen x z y hx hz hy, ?_⟩
  rw [generateExpectedVoxelFromCache_oob _ xo yo zo ho]
  rw [generate_position, generate_getTerrain noiseOf c seed hgen]

theorem claim_C2_witness :
    exFresh.is_generated = false ∧ (0 : Nat) < CHUNK_SIZE ∧ (0 : Nat) < CHUNK_HEIGHT ∧
    isInBounds (-1) 0 0 = false ∧
    ((VoxelChunk.generate noiseConst20 exFresh 5).voxels
        (coordsToIndex ((0 : Nat) : Int) ((0 : Nat) : Int) ((0 : Nat) : Int)) =
      specBlockRule (exFresh.position.y * CHUNK_HEIGHT + ((0 : Nat) : Int))
        (noiseConst20 5 (exFresh.position.x * CHUNK_SIZE + ((0 : Nat) : Int))
          (exFresh.position.z * CHUNK_SIZE + ((0 : Nat) : Int))) ∧
    (VoxelChunk.generate noiseConst20 exFresh 5).generateExpectedVoxelFromCache (-1) 0 0 =
      specBlockRule (exFresh.position.y * CHUNK_HEIGHT + 0)
        (noiseConst20 5 (exFresh.position.x * CHUNK_SIZE + (-1))
          (exFresh.position.z * CHUNK_SIZE + 0))) := by
  refine ⟨rfl, by decide, by decide, by decide, ?_⟩
  exact claim_C2 noiseConst20 exFresh 5 rfl 0 0 0 (by decide) (by decide)
    (by decide) (-1) 0 0 (by decide)

theorem foldl_preserves_prop {α β : Type} (P : β → Prop) (step : β → α → β) (l : List α)
    (h : ∀ b a, a ∈ l → P b → P (step b a)) (b0 : β) (h0 : P b0) :
    P (l.foldl step b0) := by
  induction l generalizing b0 with
  | nil => exact h0
  | cons a t ih =>
      exact ih (fun b x hx hb => h b x (List.mem_cons_of_mem _ hx) hb) _
        (h b0 a (List.mem_cons_self _ _) h0)

theorem foldl_mem_of_visit {α β γ : Type} (S : β → List γ) (v : γ) (step : β → α → β)
    (l : List α) (a : α) (ha : a ∈ l)
    (hmono : ∀ b x, x ∈ l → ∀ g, g ∈ S b → g ∈ S (step b x))
    (hhit : ∀ b, v ∈ S (step b a)) (b0 : β) : v ∈ S (l.foldl step b0) := by
  induction l generalizing b0 with
  | nil => cases ha
  | cons x t ih =>
      by_cases hax : a = x
      · subst hax
        exact foldl_preserves_prop (fun b => v ∈ S b) step t
          (fun b y hy hb => hmono b y (List.mem_cons_of_mem _ hy) v hb) _ (hhit b0)
      · have hat : a ∈ t := by
          rcases List.mem_cons.mp ha with h | h
          · exact absurd h hax
          · exact h
        exact ih hat (fun b y hy => hmono b y (List.mem_cons_of_mem _ hy)) _

theorem addFaceOptimized_faces (m : ChunkMeshState) (p : Vec3) (dir : Nat) (v : VoxelID)
    (x y z : Int) :
    (ChunkMesh.addFaceOptimized m p dir v x y z).faces = m.faces ++ [⟨x, y, z, dir, v⟩] := rfl

theorem emitFace_faces_mono (chunk : VoxelChunk) (x y z : Int) (v : VoxelID) (bp : Vec3)
    (mm : ChunkMeshState) (dir : Nat) (f : Face) (hf : f ∈ mm.faces) :
    f ∈ (ChunkMesh.emitFace chunk x y z v bp mm dir).faces := by
  unfold ChunkMesh.emitFace
  split
  · rw [addFaceOptimized_faces]
    exact List.mem_append_left _ hf
  · exact hf

theorem emitFace_faces_new (chunk : VoxelChunk) (x y z : Int) (v : VoxelID) (bp : Vec3)
    (mm : ChunkMeshState) (dir : Nat) (f : Face)
    (hf : f ∈ (ChunkMesh.emitFace chunk x y z v bp mm dir).faces) :
    f ∈ mm.faces ∨ (f = ⟨x, y, z, dir, v⟩ ∧
      ChunkMesh.shouldRenderFaceOptimized chunk x y z dir v = true) := by
  unfold ChunkMesh.emitFace at hf
  by_cases h : ChunkMesh.shouldRenderFaceOptimized chunk x y z dir v = true
  · rw [if_pos h, addFaceOptimized_faces] at hf
    rcases List.mem_append.mp hf with h1 | h1
    · exact Or.inl h1
    · exact Or.inr ⟨List.mem_singleton.mp h1, h⟩
  · rw [if_neg h] at hf
    exact Or.inl hf

theorem processCell_faces_mono (chunk : VoxelChunk) (m : ChunkMeshState) (x y z : Int)
    (f : Face) (hf : f ∈ m.faces) : f ∈ (ChunkMesh.processCell chunk m x y z).faces := by
  show f ∈ (if chunk.voxels (coordsToIndex x y z) = VOXEL_AIR then m
    else List.foldl (ChunkMesh.emitFace chunk x y z (chunk.voxels (coordsToIndex x y z))
      ⟨(x : ℚ), (y : ℚ), (z : ℚ)⟩) m
      [FACE_FRONT, FACE_BACK, FACE_RIGHT, FACE_LEFT, FACE_TOP, FACE_BOTTOM]).faces
  split
  · exact hf
  · exact foldl_preserves_prop (fun b => f ∈ b.faces) _ _
      (fun b a _ hb => emitFace_faces_mono chunk x y z _ _ b a f hb) m hf

theorem processCell_faces_new (chunk : VoxelChunk) (m : ChunkMeshState) (x y z : Int)
    (f : Face) (hf : f ∈ (ChunkMesh.processCell chunk m x y z).faces) :
    f ∈ m.faces ∨ (f.chunk_x = x ∧ f.chunk_y = y ∧ f.chunk_z = z ∧
      f.voxel = chunk.voxels (coordsToIndex x y z) ∧
      ChunkMesh.shouldRenderFaceOptimized chunk x y z f.dir f.voxel = true) := by
  replace hf : f ∈ (if chunk.voxels (coordsToIndex x y z) = VOXEL_AIR then m
    else List.foldl (ChunkMesh.emitFace chunk x y z (chunk.voxels (coordsToIndex x y z))
      ⟨(x : ℚ), (y : ℚ), (z : ℚ)⟩) m
      [FACE_FRONT, FACE_BACK, FACE_RIGHT, FACE_LEFT, FACE_TOP, FACE_BOTTOM]).faces := hf
  by_cases hair : chunk.voxels (coordsToIndex x y z) = VOXEL_AIR
  · rw [if_pos hair] at hf
    exact Or.inl hf
  · rw [if_neg hair] at hf
    refine foldl_preserves_prop
      (fun b => f ∈ b.faces →
        f ∈ m.faces ∨ (f.chunk_x = x ∧ f.chunk_y = y ∧ f.chunk_z = z ∧
          f.voxel = chunk.voxels (coordsToIndex x y z) ∧
          ChunkMesh.shouldRenderFaceOptimized chunk x y z f.dir f.voxel = true))
      _ _ ?_ m (fun hb => Or.inl hb) hf
    intro b a _ hb hfb
    rcases emitFace_faces_new chunk x y z _ _ b a f hfb with h1 | ⟨h1, h2⟩
    · exact hb h1
    · subst h1
      exact Or.inr ⟨rfl, rfl, rfl, rfl, h2⟩

theorem buildMesh_faces (chunk : VoxelChunk) :
    (ChunkMesh.buildMesh chunk).faces =
      (ChunkMesh.meshLoop chunk ⟨[], [], [], false, false, 0, 0⟩).faces := rfl

theorem meshLoop_faces_sound (chunk : VoxelChunk) (m0 : ChunkMeshState) (f : Face)
    (hf : f ∈ (ChunkMesh.meshLoop chunk m0).faces) :
    f ∈ m0.faces ∨
      (f.voxel = chunk.voxels (coordsToIndex f.chunk_x f.chunk_y f.chunk_z) ∧
       ChunkMesh.shouldRenderFaceOptimized chunk f.chunk_x f.chunk_y f.chunk_z f.dir
         f.voxel = true) := by
  unfold ChunkMesh.meshLoop at hf
  refine foldl_preserves_prop (fun b => f ∈ b.faces → _ ∨ _) _ _ ?_ m0
    (fun hb => Or.inl hb) hf
  intro mx xn _ hmx hfx
  refine foldl_preserves_prop (fun b => f ∈ b.faces → _ ∨ _) _ _ ?_ mx hmx hfx
  intro my yn _ hmy hfy
  refine foldl_preserves_prop (fun b => f ∈ b.faces → _ ∨ _) _ _ ?_ my hmy hfy
  intro mz zn _ hmz hfz
  rcases processCell_faces_new chunk mz _ _ _ f hfz with h1 | ⟨hcx, hcy, hcz, hv, hs⟩
  · exact hmz h1
  · rw [← hcx, ← hcy, ← hcz] at hv hs
    exact Or.inr ⟨hv, hs⟩

theorem shouldRender_water_air (chunk : VoxelChunk) (x y z : Int) (dir : Nat)
    (h : ChunkMesh.shouldRenderFaceOptimized chunk x y z dir VOXEL_WATER = true) :
    chunk.getVoxelSafe (neighborCoordsForFace x y z dir).1
      (neighborCoordsForFace x y z dir).2.1
      (neighborCoordsForFace x y z dir).2.2 = VOXEL_AIR := by
  unfold ChunkMesh.shouldRenderFaceOptimized at h
  rw [if_pos rfl] at h
  by_cases hn : chunk.getVoxelSafe (neighborCoordsForFace x y z dir).1
      (neighborCoordsForFace x y z dir).2.1
      (neighborCoordsForFace x y z dir).2.2 = VOXEL_AIR
  · exact hn
  · rw [if_neg hn] at h
    cases h

/-- Claim C1: every water face the mesher emits has an Air neighbour in
the face's direction (through the safe cross-chunk lookup); in
particular that neighbour is neither Water nor any solid block. -/
theorem claim_C1 (chunk : VoxelChunk) (f : Face)
    (hf : f ∈ (ChunkMesh.buildMesh chunk).faces) (hw : f.voxel = VOXEL_WATER) :
    chunk.getVoxelSafe (neighborCoordsForFace f.chunk_x f.chunk_y f.chunk_z f.dir).1
        (neighborCoordsForFace f.chunk_x f.chunk_y f.chunk_z f.dir).2.1
        (neighborCoordsForFace f.chunk_x f.chunk_y f.chunk_z f.dir).2.2 = VOXEL_AIR ∧
    isVoxelSolid (chunk.getVoxelSafe
        (neighborCoordsForFace f.chunk_x f.chunk_y f.chunk_z f.dir).1
        (neighborCoordsForFace f.chunk_x f.chunk_y f.chunk_z f.dir).2.1
        (neighborCoordsForFace f.chunk_x f.chunk_y f.chunk_z f.dir).2.2) = false ∧
    chunk.getVoxelSafe (neighborCoordsForFace f.chunk_x f.chunk_y f.chunk_z f.dir).1
        (neighborCoordsForFace f.chunk_x f.chunk_y f.chunk_z f.dir).2.1
        (neighborCoordsForFace f.chunk_x f.chunk_y f.chunk_z f.dir).2.2 ≠ VOXEL_WATER := by
  rw [buildMesh_faces] at hf
  rcases meshLoop_faces_sound chunk _ f hf with h | ⟨hv, hs⟩
  · exact absurd h (List.not_mem_nil f)
  · rw [hw] at hs
    have hair := shouldRender_water_air chunk _ _ _ _ hs
    refine ⟨hair, ?_, ?_⟩
    · rw [hair]
      decide
    · rw [hair]
      decide

theorem processCell_emits (chunk : VoxelChunk) (m : ChunkMeshState) (x y z : Int)
    (dir : Nat)
    (hdir : dir ∈ [FACE_FRONT, FACE_BACK, FACE_RIGHT, FACE_LEFT, FACE_TOP, FACE_BOTTOM])
    (hair : ¬ chunk.voxels (coordsToIndex x y z) = VOXEL_AIR)
    (hs : ChunkMesh.shouldRenderFaceOptimized chunk x y z dir
      (chunk.voxels (coordsToIndex x y z)) = true) :
    (⟨x, y, z, dir, chunk.voxels (coordsToIndex x y z)⟩ : Face) ∈
      (ChunkMesh.processCell chunk m x y z).faces := by
  show _ ∈ (if chunk.voxels (coordsToIndex x y z) = VOXEL_AIR then m
    else List.foldl (ChunkMesh.emitFace chunk x y z (chunk.voxels (coordsToIndex x y z))
      ⟨(x : ℚ), (y : ℚ), (z : ℚ)⟩) m
      [FACE_FRONT, FACE_BACK, FACE_RIGHT, FACE_LEFT, FACE_TOP, FACE_BOTTOM]).faces
  rw [if_neg hair]
  refine foldl_mem_of_visit (fun b4 : ChunkMeshState => b4.faces) _
    (ChunkMesh.emitFace chunk x y z (chunk.voxels (coordsToIndex x y z))
      ⟨(x : ℚ), (y : ℚ), (z : ℚ)⟩)
    [FACE_FRONT, FACE_BACK, FACE_RIGHT, FACE_LEFT, FACE_TOP, FACE_BOTTOM] dir hdir
    (fun b4 d _ g hg => emitFace_faces_mono _ _ _ _ _ _ b4 d g hg) ?_ m
  intro b4
  unfold ChunkMesh.emitFace
  rw [if_pos hs]
  show (⟨x, y, z, dir, chunk.voxels (coordsToIndex x y z)⟩ : Face) ∈
    (ChunkMesh.addFaceOptimized b4 ⟨(x : ℚ), (y : ℚ), (z : ℚ)⟩ dir
      (chunk.voxels (coordsToIndex x y z)) x y z).faces
  rw [addFaceOptimized_faces]
  exact List.mem_append_right _ (List.mem_singleton.mpr rfl)

theorem exChunkWater_face_mem :
    (⟨5, 10, 5, 4, VOXEL_WATER⟩ : Face) ∈ (ChunkMesh.buildMesh exChunkWater).faces := by
  rw [buildMesh_faces]
  unfold ChunkMesh.meshLoop
  refine foldl_mem_of_visit (fun b : ChunkMeshState => b.faces)
    ⟨5, 10, 5, 4, VOXEL_WATER⟩
    (fun mx (xn : Nat) => (List.range CHUNK_HEIGHT).foldl (fun my (yn : Nat) =>
      (List.range CHUNK_SIZE).foldl (fun mz (zn : Nat) =>
        ChunkMesh.processCell exChunkWater mz (xn : Int) (yn : Int) (zn : Int)) my) mx)
    (List.range CHUNK_SIZE) 5 ?_ ?_ ?_ ⟨[], [], [], false, false, 0, 0⟩
  · decide
  · intro b xn hxn g hg
    exact foldl_preserves_prop (fun b2 : ChunkMeshState => g ∈ b2.faces) _ _
      (fun b2 yn hyn hb2 =>
        foldl_preserves_prop (fun b3 : ChunkMeshState => g ∈ b3.faces) _ _
          (fun b3 zn hzn hb3 => processCell_faces_mono _ _ _ _ _ g hb3) b2 hb2) b hg
  · intro b
    refine foldl_mem_of_visit (fun b2 : ChunkMeshState => b2.faces)
      ⟨5, 10, 5, 4, VOXEL_WATER⟩
      (fun my (yn : Nat) => (List.range CHUNK_SIZE).foldl (fun mz (zn : Nat) =>
        ChunkMesh.processCell exChunkWater mz (((5 : Nat) : Int)) ((yn : Int))
          ((zn : Int))) my)
      (List.range CHUNK_HEIGHT) 10 ?_ ?_ ?_ b
    · decide
    · intro b2 yn hyn g hg
      exact foldl_preserves_prop (fun b3 : ChunkMeshState => g ∈ b3.faces) _ _
        (fun b3 zn hzn hb3 => processCell_faces_mono _ _ _ _ _ g hb3) b2 hg
    · intro b2
      refine foldl_mem_of_visit (fun b3 : ChunkMeshState => b3.faces)
        ⟨5, 10, 5, 4, VOXEL_WATER⟩
        (fun mz (zn : Nat) => ChunkMesh.processCell exChunkWater mz (((5 : Nat) : Int))
          (((10 : Nat) : Int)) ((zn : Int)))
        (List.range CHUNK_SIZE) 5 ?_ ?_ ?_ b2
      · decide
      · intro b3 zn hzn g hg
        exact processCell_faces_mono _ _ _ _ _ g hg
      · intro b3
        have h := processCell_emits exChunkWater b3 (((5 : Nat) : Int))
          (((10 : Nat) : Int)) (((5 : Nat) : Int)) 4 (by decide) (by decide) (by decide)
        have hv : exChunkWater.voxels (coordsToIndex (((5 : Nat) : Int))
            (((10 : Nat) : Int)) (((5 : Nat) : Int))) = VOXEL_WATER := by decide
        rw [hv] at h
        exact h

theorem claim_C1_witness :
    ((⟨5, 10, 5, 4, VOXEL_WATER⟩ : Face) ∈ (ChunkMesh.buildMesh exChunkWater).faces) ∧
    (exChunkWater.getVoxelSafe (neighborCoordsForFace 5 10 5 4).1
        (neighborCoordsForFace 5 10 5 4).2.1
        (neighborCoordsForFace 5 10 5 4).2.2 = VOXEL_AIR ∧
     isVoxelSolid (exChunkWater.getVoxelSafe (neighborCoordsForFace 5 10 5 4).1
        (neighborCoordsForFace 5 10 5 4).2.1
        (neighborCoordsForFace 5 10 5 4).2.2) = false ∧
     exChunkWater.getVoxelSafe (neighborCoordsForFace 5 10 5 4).1
        (neighborCoordsForFace 5 10 5 4).2.1
        (neighborCoordsForFace 5 10 5 4).2.2 ≠ VOXEL_WATER) :=
  ⟨exChunkWater_face_mem,
   claim_C1 exChunkWater ⟨5, 10, 5, 4, VOXEL_WATER⟩ exChunkWater_face_mem rfl⟩

theorem foldl_len_ge_weighted {α β : Type} (len : β → Nat) (step : β → α → β) (l : List α)
    (g : α → Nat) (h : ∀ b a, a ∈ l → len b + g a ≤ len (step b a)) (b0 : β) :
    len b0 + (l.map g).sum ≤ len (l.foldl step b0) := by
  induction l generalizing b0 with
  | nil => simp
  | cons a t ih =>
      have h1 := h b0 a (List.mem_cons_self _ _)
      have h2 := ih (fun b x hx => h b x (List.mem_cons_of_mem _ hx)) (step b0 a)
      simp only [List.map_cons, List.sum_cons, List.foldl_cons]
      omega

theorem foldl_len_le_weighted {α β : Type} (len : β → Nat) (step : β → α → β) (l : List α)
    (g : α → Nat) (h : ∀ b a, a ∈ l → len (step b a) ≤ len b + g a) (b0 : β) :
    len (l.foldl step b0) ≤ len b0 + (l.map g).sum := by
  induction l generalizing b0 with
  | nil => simp
  | cons a t ih =>
      have h1 := h b0 a (List.mem_cons_self _ _)
      have h2 := ih (fun b x hx => h b x (List.mem_cons_of_mem _ hx)) (step b0 a)
      simp only [List.map_cons, List.sum_cons, List.foldl_cons]
      omega

theorem foldl_len_mono {α β : Type} (len : β → Nat) (step : β → α → β) (l : List α)
    (h : ∀ b a, a ∈ l → len b ≤ len (step b a)) (b0 : β) :
    len b0 ≤ len (l.foldl step b0) := by
  have := foldl_len_ge_weighted len step l (fun _ => 0)
    (fun b a ha => by simpa using h b a ha) b0
  simpa using this

theorem foldl_len_ge_of_visit {α β : Type} (len : β → Nat) (step : β → α → β) (l : List α)
    (a : α) (ha : a ∈ l) (k : Nat)
    (hmono : ∀ b x, x ∈ l → len b ≤ len (step b x))
    (hhit : ∀ b, len b + k ≤ len (step b a)) (b0 : β) :
    len b0 + k ≤ len (l.foldl step b0) := by
  induction l generalizing b0 with
  | nil => cases ha
  | cons x t ih =>
      by_cases hax : a = x
      · subst hax
        have h1 := hhit b0
        have h2 := foldl_len_mono len step t
          (fun b y hy => hmono b y (List.mem_cons_of_mem _ hy)) (step b0 a)
        simp only [List.foldl_cons]
        omega
      · have hat : a ∈ t := by
          rcases List.mem_cons.mp ha with h | h
          · exact absurd h hax
          · exact h
        have h1 := hmono b0 x (List.mem_cons_self _ _)
        have h2 := ih hat (fun b y hy => hmono b y (List.mem_cons_of_mem _ hy)) (step b0 x)
        simp only [List.foldl_cons]
        omega

theorem addFaceOptimized_vertices_len (m : ChunkMeshState) (p : Vec3) (dir : Nat)
    (v : VoxelID) (x y z : Int) :
    (ChunkMesh.addFaceOptimized m p dir v x y z).vertices.length =
      m.vertices.length + 4 := by
  show (m.vertices ++ [_, _, _, _]).length = m.vertices.length + 4
  simp

theorem emitFace_len_mono (chunk : VoxelChunk) (x y z : Int) (v : VoxelID) (bp : Vec3)
    (mm : ChunkMeshState) (dir : Nat) :
    mm.vertices.length ≤ (ChunkMesh.emitFace chunk x y z v bp mm dir).vertices.length := by
  unfold ChunkMesh.emitFace
  split
  · rw [addFaceOptimized_vertices_len]
    omega
  · exact Nat.le_refl _

theorem emitFace_len_le (chunk : VoxelChunk) (x y z : Int) (v : VoxelID) (bp : Vec3)
    (mm : ChunkMeshState) (dir : Nat) :
    (ChunkMesh.emitFace chunk x y z v bp mm dir).vertices.length ≤
      mm.vertices.length + 4 := by
  unfold ChunkMesh.emitFace
  split
  · rw [addFaceOptimized_vertices_len]
  · omega

theorem processCell_len_mono (chunk : VoxelChunk) (m : ChunkMeshState) (x y z : Int) :
    m.vertices.length ≤ (ChunkMesh.processCell chunk m x y z).vertices.length := by
  show m.vertices.length ≤ (if chunk.voxels (coordsToIndex x y z) = VOXEL_AIR then m
    else List.foldl (ChunkMesh.emitFace chunk x y z (chunk.voxels (coordsToIndex x y z))
      ⟨(x : ℚ), (y : ℚ), (z : ℚ)⟩) m
      [FACE_FRONT, FACE_BACK, FACE_RIGHT, FACE_LEFT, FACE_TOP, FACE_BOTTOM]).vertices.length
  split
  · exact Nat.le_refl _
  · exact foldl_len_mono (fun b => b.vertices.length) _ _
      (fun b a _ => emitFace_len_mono chunk x y z _ _ b a) m

theorem processCell_len_le (chunk : VoxelChunk) (m : ChunkMeshState) (x y z : Int) :
    (ChunkMesh.processCell chunk m x y z).vertices.length ≤ m.vertices.length +
      24 * (if chunk.voxels (coordsToIndex x y z) ≠ VOXEL_AIR then 1 else 0) := by
  show (if chunk.voxels (coordsToIndex x y z) = VOXEL_AIR then m
    else List.foldl (ChunkMesh.emitFace chunk x y z (chunk.voxels (coordsToIndex x y z))
      ⟨(x : ℚ), (y : ℚ), (z : ℚ)⟩) m
      [FACE_FRONT, FACE_BACK, FACE_RIGHT, FACE_LEFT, FACE_TOP, FACE_BOTTOM]).vertices.length ≤ _
  by_cases hair : chunk.voxels (coordsToIndex x y z) = VOXEL_AIR
  · rw [if_pos hair, if_neg (by simp [hair])]
    omega
  · rw [if_neg hair, if_pos hair]
    have := foldl_len_le_weighted (fun b => b.vertices.length)
      (ChunkMesh.emitFace chunk x y z (chunk.voxels (coordsToIndex x y z))
        ⟨(x : ℚ), (y : ℚ), (z : ℚ)⟩)
      [FACE_FRONT, FACE_BACK, FACE_RIGHT, FACE_LEFT, FACE_TOP, FACE_BOTTOM] (fun _ => 4)
      (fun b a _ => emitFace_len_le chunk x y z _ _ b a) m
    simp only [List.map_cons, List.map_nil, List.sum_cons, List.sum_nil] at this
    omega

theorem processCell_len_emit (chunk : VoxelChunk) (m : ChunkMeshState) (x y z : Int)
    (dir : Nat)
    (hdir : dir ∈ [FACE_FRONT, FACE_BACK, FACE_RIGHT, FACE_LEFT, FACE_TOP, FACE_BOTTOM])
    (hair : ¬ chunk.voxels (coordsToIndex x y z) = VOXEL_AIR)
    (hs : ChunkMesh.shouldRenderFaceOptimized chunk x y z dir
      (chunk.voxels (coordsToIndex x y z)) = true) :
    m.vertices.length + 4 ≤ (ChunkMesh.processCell chunk m x y z).vertices.length := by
  show m.vertices.length + 4 ≤
    (if chunk.voxels (coordsToIndex x y z) = VOXEL_AIR then m
    else List.foldl (ChunkMesh.emitFace chunk x y z (chunk.voxels (coordsToIndex x y z))
      ⟨(x : ℚ), (y : ℚ), (z : ℚ)⟩) m
      [FACE_FRONT, FACE_BACK, FACE_RIGHT, FACE_LEFT, FACE_TOP, FACE_BOTTOM]).vertices.length
  rw [if_neg hair]
  refine foldl_len_ge_of_visit (fun b => b.vertices.length) _ _ dir hdir 4
    (fun b d _ => emitFace_len_mono chunk x y z _ _ b d) ?_ m
  intro b
  show b.vertices.length + 4 ≤
    (ChunkMesh.emitFace chunk x y z (chunk.voxels (coordsToIndex x y z))
      ⟨(x : ℚ), (y : ℚ), (z : ℚ)⟩ b dir).vertices.length
  unfold ChunkMesh.emitFace
  rw [if_pos hs, addFaceOptimized_vertices_len]

theorem shouldRender_transparent_ne (chunk : VoxelChunk) (x y z : Int) (dir : Nat)
    (cv : VoxelID) (hw : cv ≠ VOXEL_WATER) (ht : (VOXEL_INFO cv).is_transparent = true)
    (hne : cv ≠ chunk.getVoxelSafe (neighborCoordsForFace x y z dir).1
      (neighborCoordsForFace x y z dir).2.1 (neighborCoordsForFace x y z dir).2.2) :
    ChunkMesh.shouldRenderFaceOptimized chunk x y z dir cv = true := by
  show (if cv = VOXEL_WATER then
      (if chunk.getVoxelSafe (neighborCoordsForFace x y z dir).1
          (neighborCoordsForFace x y z dir).2.1
          (neighborCoordsForFace x y z dir).2.2 = VOXEL_AIR then true else false)
    else if (VOXEL_INFO cv).is_transparent = false then
      (VOXEL_INFO (chunk.getVoxelSafe (neighborCoordsForFace x y z dir).1
        (neighborCoordsForFace x y z dir).2.1
        (neighborCoordsForFace x y z dir).2.2)).is_transparent
    else decide (cv ≠ chunk.getVoxelSafe (neighborCoordsForFace x y z dir).1
      (neighborCoordsForFace x y z dir).2.1
      (neighborCoordsForFace x y z dir).2.2)) = true
  rw [if_neg hw, if_neg (by simp [ht])]
  exact decide_eq_true hne

theorem leaves_ne_spec (wy h : Int) : VOXEL_LEAVES ≠ specBlockRule wy h := by
  unfold specBlockRule
  repeat' split
  all_goals decide

theorem exChunkLeaves_neighbor_left (y z : Int) (hy0 : 0 ≤ y) (hy1 : y < (CHUNK_HEIGHT : Int))
    (hz0 : 0 ≤ z) (hz1 : z < (CHUNK_SIZE : Int)) :
    exChunkLeaves.getVoxelSafe (-1) y z = specBlockRule y 64 := by
  have hib : isInBounds (-1) y z = false := rfl
  have hs16 : (CHUNK_SIZE : Int) = 16 := rfl
  have hh64 : (CHUNK_HEIGHT : Int) = 64 := rfl
  rw [hh64] at hy1
  rw [hs16] at hz1
  have happ : ¬((-1 : Int) < -1 ∨ (-1 : Int) > (CHUNK_SIZE : Int) ∨ y < -1 ∨
      y > (CHUNK_HEIGHT : Int) ∨ z < -1 ∨ z > (CHUNK_SIZE : Int)) := by
    rw [hs16, hh64]
    omega
  unfold VoxelChunk.getVoxelSafe VoxelChunk.getVoxelWithNeighbors
  rw [hib]
  simp only [Bool.false_eq_true, if_false]
  rw [if_neg happ]
  show exChunkLeaves.generateExpectedVoxelFromCache (-1) y z = specBlockRule y 64
  rw [generateExpectedVoxelFromCache_oob _ _ _ _ hib]
  rw [show exChunkLeaves.getTerrainHeightFromCache (-1) z = 64 from rfl]
  rw [show exChunkLeaves.position.y * (CHUNK_HEIGHT : Int) + y = y by
    rw [show exChunkLeaves.position.y = 0 from rfl]; ring]

theorem exChunkLeaves_neighbor_right (y z : Int) (hy0 : 0 ≤ y)
    (hy1 : y < (CHUNK_HEIGHT : Int)) (hz0 : 0 ≤ z) (hz1 : z < (CHUNK_SIZE : Int)) :
    exChunkLeaves.getVoxelSafe ((CHUNK_SIZE : Int)) y z = specBlockRule y 64 := by
  have hib : isInBounds ((CHUNK_SIZE : Int)) y z = false := rfl
  have hs16 : (CHUNK_SIZE : Int) = 16 := rfl
  have hh64 : (CHUNK_HEIGHT : Int) = 64 := rfl
  rw [hh64] at hy1
  rw [hs16] at hz1
  have happ : ¬(((CHUNK_SIZE : Int)) < -1 ∨ ((CHUNK_SIZE : Int)) > (CHUNK_SIZE : Int) ∨
      y < -1 ∨ y > (CHUNK_HEIGHT : Int) ∨ z < -1 ∨ z > (CHUNK_SIZE : Int)) := by
    rw [hs16, hh64]
    omega
  unfold VoxelChunk.getVoxelSafe VoxelChunk.getVoxelWithNeighbors
  rw [hib]
  simp only [Bool.false_eq_true, if_false]
  rw [if_neg happ]
  show exChunkLeaves.generateExpectedVoxelFromCache ((CHUNK_SIZE : Int)) y z =
    specBlockRule y 64
  rw [generateExpectedVoxelFromCache_oob _ _ _ _ hib]
  rw [show exChunkLeaves.getTerrainHeightFromCache ((CHUNK_SIZE : Int)) z = 64 from rfl]
  rw [show exChunkLeaves.position.y * (CHUNK_HEIGHT : Int) + y = y by
    rw [show exChunkLeaves.position.y = 0 from rfl]; ring]

theorem processCell_leaves_left (m : ChunkMeshState) (yn zn : Nat)
    (hy : yn < CHUNK_HEIGHT) (hz : zn < CHUNK_SIZE) :
    m.vertices.length + 4 ≤ (ChunkMesh.processCell exChunkLeaves m (((0 : Nat)) : Int)
      ((yn : Int)) ((zn : Int))).vertices.length := by
  have hcv : exChunkLeaves.voxels (coordsToIndex (((0 : Nat)) : Int) ((yn : Int))
      ((zn : Int))) = VOXEL_LEAVES := rfl
  refine processCell_len_emit exChunkLeaves m (((0 : Nat)) : Int) ((yn : Int)) ((zn : Int))
    3 (by decide) (by rw [hcv]; decide) ?_
  refine shouldRender_transparent_ne exChunkLeaves (((0 : Nat)) : Int) ((yn : Int))
    ((zn : Int)) 3 _ (by rw [hcv]; decide) (by rw [hcv]; decide) ?_
  have hn := exChunkLeaves_neighbor_left (yn : Int) (zn : Int) (Int.natCast_nonneg _)
    (by exact_mod_cast hy) (Int.natCast_nonneg _) (by exact_mod_cast hz)
  rw [show (neighborCoordsForFace (((0 : Nat)) : Int) ((yn : Int)) ((zn : Int)) 3).1 =
    (-1 : Int) from rfl]
  rw [show (neighborCoordsForFace (((0 : Nat)) : Int) ((yn : Int)) ((zn : Int)) 3).2.1 =
    ((yn : Int)) from rfl]
  rw [show (neighborCoordsForFace (((0 : Nat)) : Int) ((yn : Int)) ((zn : Int)) 3).2.2 =
    ((zn : Int)) from rfl]
  rw [hn, hcv]
  exact leaves_ne_spec _ _

theorem processCell_leaves_right (m : ChunkMeshState) (yn zn : Nat)
    (hy : yn < CHUNK_HEIGHT) (hz : zn < CHUNK_SIZE) :
    m.vertices.length + 4 ≤ (ChunkMesh.processCell exChunkLeaves m (((15 : Nat)) : Int)
      ((yn : Int)) ((zn : Int))).vertices.length := by
  have hcv : exChunkLeaves.voxels (coordsToIndex (((15 : Nat)) : Int) ((yn : Int))
      ((zn : Int))) = VOXEL_LEAVES := rfl
  refine processCell_len_emit exChunkLeaves m (((15 : Nat)) : Int) ((yn : Int)) ((zn : Int))
    2 (by decide) (by rw [hcv]; decide) ?_
  refine shouldRender_transparent_ne exChunkLeaves (((15 : Nat)) : Int) ((yn : Int))
    ((zn : Int)) 2 _ (by rw [hcv]; decide) (by rw [hcv]; decide) ?_
  have hn := exChunkLeaves_neighbor_right (yn : Int) (zn : Int) (Int.natCast_nonneg _)
    (by exact_mod_cast hy) (Int.natCast_nonneg _) (by exact_mod_cast hz)
  rw [show (neighborCoordsForFace (((15 : Nat)) : Int) ((yn : Int)) ((zn : Int)) 2).1 =
    ((15 : Nat) : Int) + 1 from rfl]
  rw [show (neighborCoordsForFace (((15 : Nat)) : Int) ((yn : Int)) ((zn : Int)) 2).2.1 =
    ((yn : Int)) from rfl]
  rw [show (neighborCoordsForFace (((15 : Nat)) : Int) ((yn : Int)) ((zn : Int)) 2).2.2 =
    ((zn : Int)) from rfl]
  rw [show ((15 : Nat) : Int) + 1 = ((CHUNK_SIZE : Nat) : Int) from rfl]
  rw [hn, hcv]
  exact leaves_ne_spec _ _

theorem exChunkLeaves_lower :
    8192 ≤ (ChunkMesh.buildMesh exChunkLeaves).vertices.length := by
  rw [show (ChunkMesh.buildMesh exChunkLeaves).vertices =
    (ChunkMesh.meshLoop exChunkLeaves ⟨[], [], [], false, false, 0, 0⟩).vertices from rfl]
  unfold ChunkMesh.meshLoop
  have hx := foldl_len_ge_weighted (fun b : ChunkMeshState => b.vertices.length)
    (fun mx (xn : Nat) => (List.range CHUNK_HEIGHT).foldl (fun my (yn : Nat) =>
      (List.range CHUNK_SIZE).foldl (fun mz (zn : Nat) =>
        ChunkMesh.processCell exChunkLeaves mz (xn : Int) (yn : Int) (zn : Int)) my) mx)
    (List.range CHUNK_SIZE)
    (fun (xn : Nat) => if xn = 0 ∨ xn = 15 then 4096 else 0) ?hstep
    ⟨[], [], [], false, false, 0, 0⟩
  case hstep =>
    intro b xn hxn
    show b.vertices.length + (if xn = 0 ∨ xn = 15 then 4096 else 0) ≤
      ((List.range CHUNK_HEIGHT).foldl (fun my (yn : Nat) =>
        (List.range CHUNK_SIZE).foldl (fun mz (zn : Nat) =>
          ChunkMesh.processCell exChunkLeaves mz (xn : Int) (yn : Int) (zn : Int)) my)
        b).vertices.length
    by_cases hx015 : xn = 0 ∨ xn = 15
    · rw [if_pos hx015]
      have hy := foldl_len_ge_weighted (fun b : ChunkMeshState => b.vertices.length)
        (fun my (yn : Nat) => (List.range CHUNK_SIZE).foldl (fun mz (zn : Nat) =>
          ChunkMesh.processCell exChunkLeaves mz (xn : Int) (yn : Int) (zn : Int)) my)
        (List.range CHUNK_HEIGHT) (fun _ : Nat => 64) ?ystep b
      case ystep =>
        intro b2 yn hyn
        show b2.vertices.length + 64 ≤
          ((List.range CHUNK_SIZE).foldl (fun mz (zn : Nat) =>
            ChunkMesh.processCell exChunkLeaves mz (xn : Int) (yn : Int) (zn : Int))
            b2).vertices.length
        have hzf := foldl_len_ge_weighted (fun b : ChunkMeshState => b.vertices.length)
          (fun mz (zn : Nat) => ChunkMesh.processCell exChunkLeaves mz (xn : Int)
            (yn : Int) (zn : Int))
          (List.range CHUNK_SIZE) (fun _ : Nat => 4) ?zstep b2
        case zstep =>
          intro b3 zn hzn
          show b3.vertices.length + 4 ≤
            (ChunkMesh.processCell exChunkLeaves b3 (xn : Int) (yn : Int)
              (zn : Int)).vertices.length
          rcases hx015 with h0 | h15
          · subst h0
            exact processCell_leaves_left b3 yn zn (List.mem_range.mp hyn)
              (List.mem_range.mp hzn)
          · subst h15
            exact processCell_leaves_right b3 yn zn (List.mem_range.mp hyn)
              (List.mem_range.mp hzn)
        have hsum : ((List.range CHUNK_SIZE).map (fun _ : Nat => 4)).sum = 64 := by decide
        rw [hsum] at hzf
        exact hzf
      have hsum : ((List.range CHUNK_HEIGHT).map (fun _ : Nat => 64)).sum = 4096 := by
        decide
      rw [hsum] at hy
      exact hy
    · rw [if_neg hx015]
      have hmn := foldl_len_mono (fun b : ChunkMeshState => b.vertices.length)
        (fun my (yn : Nat) => (List.range CHUNK_SIZE).foldl (fun mz (zn : Nat) =>
          ChunkMesh.processCell exChunkLeaves mz (xn : Int) (yn : Int) (zn : Int)) my)
        (List.range CHUNK_HEIGHT)
        (fun b2 yn _ => foldl_len_mono (fun b : ChunkMeshState => b.vertices.length)
          (fun mz (zn : Nat) => ChunkMesh.processCell exChunkLeaves mz (xn : Int)
            (yn : Int) (zn : Int))
          (List.range CHUNK_SIZE)
          (fun b3 zn _ => processCell_len_mono exChunkLeaves b3 _ _ _) b2) b
      omega
  have hsum : ((List.range CHUNK_SIZE).map
      (fun (xn : Nat) => if xn = 0 ∨ xn = 15 then 4096 else 0)).sum = 8192 := by decide
  rw [hsum] at hx
  exact le_trans (Nat.le_add_left 8192 _) hx

theorem foldl_count_eq_countP {α : Type} (p : α → Prop) [DecidablePred p] (l : List α)
    (k : Nat) :
    l.foldl (fun n a => if p a then n + 1 else n) k =
      k + l.countP (fun a => decide (p a)) := by
  induction l generalizing k with
  | nil => simp
  | cons a t ih =>
      simp only [List.foldl_cons, List.countP_cons, ih]
      by_cases h : p a
      · simp [h]
        omega
      · simp [h]

theorem solidVoxelCount_eq (chunk : VoxelChunk) :
    ChunkMesh.solidVoxelCount chunk =
      (List.range CHUNK_VOLUME).countP
        (fun (i : Nat) => decide (chunk.voxels (i : Int) ≠ VOXEL_AIR)) := by
  unfold ChunkMesh.solidVoxelCount
  rw [foldl_count_eq_countP (fun (i : Nat) => chunk.voxels (i : Int) ≠ VOXEL_AIR)
    (List.range CHUNK_VOLUME) 0]
  omega

theorem sum_map_mul_const {α : Type} (c : Nat) (f : α → Nat) (l : List α) :
    (l.map (fun a => c * f a)).sum = c * (l.map f).sum := by
  induction l with
  | nil => simp
  | cons a t ih => simp [List.map_cons, List.sum_cons, ih, Nat.mul_add]

theorem sum_map_ite_eq_countP {α : Type} (p : α → Prop) [DecidablePred p] (l : List α) :
    (l.map (fun a => if p a then 1 else 0)).sum = l.countP (fun a => decide (p a)) := by
  induction l with
  | nil => simp
  | cons a t ih =>
      simp only [List.map_cons, List.sum_cons, List.countP_cons, ih, decide_eq_true_eq]
      by_cases h : p a
      · simp [h]
        omega
      · simp [h]

theorem countP_range_mul (a b : Nat) (p : Nat → Bool) :
    (List.range (a * b)).countP p =
      ((List.range a).map (fun i => (List.range b).countP (fun j => p (i * b + j)))).sum := by
  induction a with
  | zero => simp
  | succ a ih =>
      have hr : List.range ((a + 1) * b) =
          List.range (a * b) ++ (List.range b).map (fun j => a * b + j) := by
        rw [Nat.succ_mul, List.range_add]
  
      rw [hr, List.countP_append, ih, List.range_succ, List.map_append, List.sum_append,
        List.countP_map]
      simp only [List.map_cons, List.map_nil, List.sum_cons, List.sum_nil]
      have hc : List.countP (p ∘ fun j => a * b + j) (List.range b) =
          List.countP (fun j => p (a * b + j)) (List.range b) :=
        List.countP_congr (fun j _ => Iff.rfl)
      omega

theorem solidVoxelCount_eq_triple (chunk : VoxelChunk) :
    ChunkMesh.solidVoxelCount chunk =
      ((List.range CHUNK_SIZE).map (fun (xn : Nat) =>
        ((List.range CHUNK_HEIGHT).map (fun (yn : Nat) =>
          (List.range CHUNK_SIZE).countP (fun (zn : Nat) =>
            decide (chunk.voxels (coordsToIndex (xn : Int) (yn : Int) (zn : Int)) ≠
              VOXEL_AIR)))).sum)).sum := by
  rw [solidVoxelCount_eq]
  rw [show CHUNK_VOLUME = CHUNK_SIZE * (CHUNK_HEIGHT * CHUNK_SIZE) by
    unfold CHUNK_VOLUME CHUNK_SIZE CHUNK_HEIGHT; ring]
  rw [countP_range_mul CHUNK_SIZE (CHUNK_HEIGHT * CHUNK_SIZE)]
  refine congrArg List.sum (List.map_congr_left ?_)
  intro xn hxn
  rw [countP_range_mul CHUNK_HEIGHT CHUNK_SIZE]
  refine congrArg List.sum (List.map_congr_left ?_)
  intro yn hyn
  refine List.countP_congr ?_
  intro zn hzn
  have hidx : (((xn * (CHUNK_HEIGHT * CHUNK_SIZE) + (yn * CHUNK_SIZE + zn)) : Nat) : Int) =
      coordsToIndex (xn : Int) (yn : Int) (zn : Int) := by
    unfold coordsToIndex CHUNK_SIZE CHUNK_HEIGHT
    push_cast
    ring
  rw [hidx]

theorem meshLoop_len_le (chunk : VoxelChunk) (m0 : ChunkMeshState) :
    (ChunkMesh.meshLoop chunk m0).vertices.length ≤
      m0.vertices.length + 24 * ChunkMesh.solidVoxelCount chunk := by
  rw [solidVoxelCount_eq_triple]
  unfold ChunkMesh.meshLoop
  refine le_trans (foldl_len_le_weighted (fun b : ChunkMeshState => b.vertices.length) _
    (List.range CHUNK_SIZE)
    (fun (xn : Nat) => 24 * ((List.range CHUNK_HEIGHT).map (fun (yn : Nat) =>
      (List.range CHUNK_SIZE).countP (fun (zn : Nat) =>
        decide (chunk.voxels (coordsToIndex (xn : Int) (yn : Int) (zn : Int)) ≠
          VOXEL_AIR)))).sum) ?hx m0) ?_
  case hx =>
    intro b xn hxn
    show ((List.range CHUNK_HEIGHT).foldl (fun my (yn : Nat) =>
        (List.range CHUNK_SIZE).foldl (fun mz (zn : Nat) =>
          ChunkMesh.processCell chunk mz (xn : Int) (yn : Int) (zn : Int)) my)
        b).vertices.length ≤ b.vertices.length +
      24 * ((List.range CHUNK_HEIGHT).map (fun (yn : Nat) =>
        (List.range CHUNK_SIZE).countP (fun (zn : Nat) =>
          decide (chunk.voxels (coordsToIndex (xn : Int) (yn : Int) (zn : Int)) ≠
            VOXEL_AIR)))).sum
    refine le_trans (foldl_len_le_weighted (fun b : ChunkMeshState => b.vertices.length) _
      (List.range CHUNK_HEIGHT)
      (fun (yn : Nat) => 24 * (List.range CHUNK_SIZE).countP (fun (zn : Nat) =>
        decide (chunk.voxels (coordsToIndex (xn : Int) (yn : Int) (zn : Int)) ≠
          VOXEL_AIR))) ?hy b) ?_
    case hy =>
      intro b2 yn hyn
      show ((List.range CHUNK_SIZE).foldl (fun mz (zn : Nat) =>
          ChunkMesh.processCell chunk mz (xn : Int) (yn : Int) (zn : Int))
          b2).vertices.length ≤ b2.vertices.length +
        24 * (List.range CHUNK_SIZE).countP (fun (zn : Nat) =>
          decide (chunk.voxels (coordsToIndex (xn : Int) (yn : Int) (zn : Int)) ≠
            VOXEL_AIR))
      refine le_trans (foldl_len_le_weighted (fun b : ChunkMeshState => b.vertices.length) _
        (List.range CHUNK_SIZE)
        (fun (zn : Nat) => 24 * (if chunk.voxels (coordsToIndex (xn : Int) (yn : Int)
          (zn : Int)) ≠ VOXEL_AIR then 1 else 0)) ?hz b2) ?_
      case hz =>
        intro b3 zn hzn
        show (ChunkMesh.processCell chunk b3 (xn : Int) (yn : Int)
            (zn : Int)).vertices.length ≤ b3.vertices.length +
          24 * (if chunk.voxels (coordsToIndex (xn : Int) (yn : Int) (zn : Int)) ≠
            VOXEL_AIR then 1 else 0)
        exact processCell_len_le chunk b3 (xn : Int) (yn : Int) (zn : Int)
      have hfac : ((List.range CHUNK_SIZE).map (fun (zn : Nat) =>
          24 * (if chunk.voxels (coordsToIndex (xn : Int) (yn : Int) (zn : Int)) ≠
            VOXEL_AIR then 1 else 0))).sum =
          24 * (List.range CHUNK_SIZE).countP (fun (zn : Nat) =>
            decide (chunk.voxels (coordsToIndex (xn : Int) (yn : Int) (zn : Int)) ≠
              VOXEL_AIR)) := by
        rw [sum_map_mul_const 24, sum_map_ite_eq_countP]
      rw [hfac]
    have hfac2 : ((List.range CHUNK_HEIGHT).map (fun (yn : Nat) =>
        24 * (List.range CHUNK_SIZE).countP (fun (zn : Nat) =>
          decide (chunk.voxels (coordsToIndex (xn : Int) (yn : Int) (zn : Int)) ≠
            VOXEL_AIR)))).sum =
        24 * ((List.range CHUNK_HEIGHT).map (fun (yn : Nat) =>
          (List.range CHUNK_SIZE).countP (fun (zn : Nat) =>
            decide (chunk.voxels (coordsToIndex (xn : Int) (yn : Int) (zn : Int)) ≠
              VOXEL_AIR)))).sum := sum_map_mul_const 24 _ _
    rw [hfac2]
  have hfac3 : ((List.range CHUNK_SIZE).map (fun (xn : Nat) =>
      24 * ((List.range CHUNK_HEIGHT).map (fun (yn : Nat) =>
        (List.range CHUNK_SIZE).countP (fun (zn : Nat) =>
          decide (chunk.voxels (coordsToIndex (xn : Int) (yn : Int) (zn : Int)) ≠
            VOXEL_AIR)))).sum)).sum =
      24 * ((List.range CHUNK_SIZE).map (fun (xn : Nat) =>
        ((List.range CHUNK_HEIGHT).map (fun (yn : Nat) =>
          (List.range CHUNK_SIZE).countP (fun (zn : Nat) =>
            decide (chunk.voxels (coordsToIndex (xn : Int) (yn : Int) (zn : Int)) ≠
              VOXEL_AIR)))).sum)).sum := sum_map_mul_const 24 _ _
  rw [hfac3]

theorem buildMesh_len_le (chunk : VoxelChunk) :
    (ChunkMesh.buildMesh chunk).vertices.length ≤
      24 * ChunkMesh.solidVoxelCount chunk := by
  rw [show (ChunkMesh.buildMesh chunk).vertices =
    (ChunkMesh.meshLoop chunk ⟨[], [], [], false, false, 0, 0⟩).vertices from rfl]
  have h := meshLoop_len_le chunk ⟨[], [], [], false, false, 0, 0⟩
  have h0 : (⟨[], [], [], false, false, 0, 0⟩ : ChunkMeshState).vertices.length = 0 := rfl
  omega

theorem exChunkLeaves_solid : ChunkMesh.solidVoxelCount exChunkLeaves = CHUNK_VOLUME := by
  rw [solidVoxelCount_eq]
  rw [show (List.range CHUNK_VOLUME).countP
      (fun (i : Nat) => decide (exChunkLeaves.voxels (i : Int) ≠ VOXEL_AIR)) =
      (List.range CHUNK_VOLUME).length from
    List.countP_eq_length.mpr (fun i _ => rfl)]
  exact List.length_range _

theorem exFresh_solid : ChunkMesh.solidVoxelCount exFresh = 0 := by
  rw [solidVoxelCount_eq]
  refine List.countP_eq_zero.mpr ?_
  intro i hi h
  rw [show decide (exFresh.voxels (i : Int) ≠ VOXEL_AIR) = false from rfl] at h
  cases h

theorem exChunkLeaves_estimated : ChunkMesh.estimatedVertices exChunkLeaves = 4096 := by
  unfold ChunkMesh.estimatedVertices
  rw [exChunkLeaves_solid]
  decide

/-- Claim C8 counterexample: for the all-Leaves chunk the reserve is
`min(24·16384, 4096) = 4096` vertices but the build emits at least 8192
(every cell of the `x = 0` and `x = 15` walls emits its outward face
against the predicted non-Leaves apron terrain), so the reserved
quantity is not an upper bound on the emission. -/
theorem claim_C8_counterexample :
    ChunkMesh.estimatedVertices exChunkLeaves <
      (ChunkMesh.buildMesh exChunkLeaves).vertices.length := by
  have h1 := exChunkLeaves_estimated
  have h2 := exChunkLeaves_lower
  omega

/-- Claim C8 (amended): `buildMesh` reserves
`min(solid_count·24, VOLUME/4)` vertices; the emission is bounded by
`24·solid_count`, and the reserved quantity bounds the emission
whenever `solid_count·24 ≤ VOLUME/4` (the truncated branch of the
`min` need not be an upper bound). -/
theorem claim_C8 (chunk : VoxelChunk) :
    ChunkMesh.estimatedVertices chunk =
      min (ChunkMesh.solidVoxelCount chunk * 24) (CHUNK_VOLUME / 4) ∧
    (ChunkMesh.buildMesh chunk).vertices.length ≤
      24 * ChunkMesh.solidVoxelCount chunk ∧
    (ChunkMesh.solidVoxelCount chunk * 24 ≤ CHUNK_VOLUME / 4 →
      (ChunkMesh.buildMesh chunk).vertices.length ≤
        ChunkMesh.estimatedVertices chunk) := by
  refine ⟨rfl, buildMesh_len_le chunk, ?_⟩
  intro h
  unfold ChunkMesh.estimatedVertices
  rw [Nat.min_eq_left h]
  have := buildMesh_len_le chunk
  omega

theorem claim_C8_witness :
    ChunkMesh.solidVoxelCount exFresh * 24 ≤ CHUNK_VOLUME / 4 ∧
    (ChunkMesh.buildMesh exFresh).vertices.length ≤
      ChunkMesh.estimatedVertices exFresh := by
  have hle : ChunkMesh.solidVoxelCount exFresh * 24 ≤ CHUNK_VOLUME / 4 := by
    rw [exFresh_solid]
    decide
  exact ⟨hle, (claim_C8 exFresh).2.2 hle⟩
